import Mathlib

/-!
Verification development for the SWG terrain (TRN) editor core
(`trnParser.ts`, `trnTree.ts`, the `TRNDocument` patch writer in
`trnEditorProvider.ts`).

Modelling conventions (shallow embedding of the TypeScript source):

* A byte buffer (`Uint8Array`) is a `List Nat`; `byteAt` models JS indexing:
  an in-range index yields the byte (always `< 256` in a `Uint8Array`),
  an out-of-range index yields `undefined`, which every numeric context in
  this code (bitwise ops, `DataView.setUint8`, `String.fromCharCode`)
  coerces to `0`.  No read ever throws.
* JS strings of char codes are `List Nat` (`JStr`).
* JS numbers holding decoded float32 payloads are modelled by `F32`
  (a rational for finite values, plus infinities and NaN); `f32val` decodes
  a 32-bit pattern exactly per IEEE-754 binary32.
* Cursor-advancing readers are state-passing: they return `value × newPos`.
* Unbounded `while` loops become fuel recursion; every loop in the source
  makes strictly positive progress per iteration, so any fuel at least the
  iteration count yields the loop's exact result.  The one walk that can
  genuinely diverge (`TRNDocument.findDataChunkRecursive`, whose `pos` can
  step backwards because its size read is a *signed* 32-bit read) reports
  fuel exhaustion as a distinct `none` outcome so that divergence is not
  conflated with the `-1` failure return.
* `Nat` subtraction: at every site where the JS expression can go negative
  (`size - 4` with `size < 4`, `end - 8` with `end < 8`) the truncated
  `Nat` value and the negative JS value drive the subsequent `<` guard to
  the same branch; these sites are noted inline.
-/

set_option maxRecDepth 16000

/-- JS string as a list of char codes. -/
abbrev JStr := List Nat

/-- `Uint8Array` indexing followed by numeric coercion: in-range gives the
byte (`< 256`), out-of-range gives `undefined` which coerces to `0`. -/
def byteAt (d : List Nat) (p : Nat) : Nat := (d.getD p 0) % 256

/-- Char codes of a Lean string literal (all constants below are ASCII). -/
def js (s : String) : JStr := s.toList.map (fun c => c.toNat)

def strFORM : JStr := "FORM".toList.map (fun c => c.toNat)
def strPTAT : JStr := "PTAT".toList.map (fun c => c.toNat)
def strDATA : JStr := "DATA".toList.map (fun c => c.toNat)
def strIHDR : JStr := "IHDR".toList.map (fun c => c.toNat)
def strBCIR : JStr := "BCIR".toList.map (fun c => c.toNat)
def strBREC : JStr := "BREC".toList.map (fun c => c.toNat)
def strBPOL : JStr := "BPOL".toList.map (fun c => c.toNat)
def strBPLN : JStr := "BPLN".toList.map (fun c => c.toNat)
def strLAYR : JStr := "LAYR".toList.map (fun c => c.toNat)
def strCircle : JStr := "circle".toList.map (fun c => c.toNat)
def strRectangle : JStr := "rectangle".toList.map (fun c => c.toNat)
def strPolygon : JStr := "polygon".toList.map (fun c => c.toNat)
def strPolyline : JStr := "polyline".toList.map (fun c => c.toNat)
def strCenterX : JStr := "centerX".toList.map (fun c => c.toNat)
def strCenterZ : JStr := "centerZ".toList.map (fun c => c.toNat)
def strRadius : JStr := "radius".toList.map (fun c => c.toNat)
def strFeatherType : JStr := "featherType".toList.map (fun c => c.toNat)
def strFeatherAmount : JStr := "featherAmount".toList.map (fun c => c.toNat)
def strX1 : JStr := "x1".toList.map (fun c => c.toNat)
def strZ1 : JStr := "z1".toList.map (fun c => c.toNat)
def strX2 : JStr := "x2".toList.map (fun c => c.toNat)
def strZ2 : JStr := "z2".toList.map (fun c => c.toNat)
def strWidth : JStr := "width".toList.map (fun c => c.toNat)

/-- The value of a JS number produced by decoding a float32: a rational for
finite values (zeros collapse to `0`, as `-0 === 0` for every comparison the
source performs), plus infinities and NaN. -/
inductive F32 where
  | finite (q : ℚ)
  | inf
  | ninf
  | nan
deriving DecidableEq

/-- Exact IEEE-754 binary32 decoding of a 32-bit pattern.  A finite value
is `± mag / 2^149` where `mag = m` for subnormals (`e = 0`, value
`m/2^23 * 2^-126`) and `mag = (2^23 + m) * 2^(e-1)` for normals (value
`(1 + m/2^23) * 2^(e-127)`); built with `mkRat` so that every decode is a
normalized rational the kernel can evaluate. -/
def f32val (w : Nat) : F32 :=
  let s : Nat := w / 2 ^ 31
  let e : Nat := w / 2 ^ 23 % 256
  let m : Nat := w % 2 ^ 23
  if e = 255 then
    (if m = 0 then (if s = 1 then F32.ninf else F32.inf) else F32.nan)
  else
    let mag : Nat := if e = 0 then m else (2 ^ 23 + m) * 2 ^ (e - 1)
    F32.finite (mkRat (if s = 1 then -(mag : Int) else (mag : Int)) (2 ^ 149))

/-- JS `>` on two such numbers (any comparison with NaN is false). -/
def f32Gt : F32 → F32 → Bool
  | F32.nan, _ => false
  | _, F32.nan => false
  | F32.inf, F32.inf => false
  | F32.inf, _ => true
  | F32.ninf, _ => false
  | F32.finite _, F32.inf => false
  | F32.finite _, F32.ninf => true
  | F32.finite a, F32.finite b => decide (b < a)

/-- JS `<=` on two such numbers (any comparison with NaN is false). -/
def f32Le : F32 → F32 → Bool
  | F32.nan, _ => false
  | _, F32.nan => false
  | F32.ninf, _ => true
  | _, F32.inf => true
  | F32.inf, _ => false
  | F32.finite _, F32.ninf => false
  | F32.finite a, F32.finite b => decide (a ≤ b)

def f32IsNan : F32 → Bool
  | F32.nan => true
  | _ => false

/-- JS unary minus on a decoded number (via `mkRat` to stay
kernel-evaluable; `mkRat (-q.num) q.den = -q` for any normalized `q`). -/
def f32neg : F32 → F32
  | F32.finite q => F32.finite (mkRat (-q.num) q.den)
  | F32.inf => F32.ninf
  | F32.ninf => F32.inf
  | F32.nan => F32.nan

/-- JS `/ 2` on a decoded number (exact for every float32-ranged double;
`mkRat q.num (q.den * 2) = q / 2`). -/
def f32half : F32 → F32
  | F32.finite q => F32.finite (mkRat q.num (q.den * 2))
  | F32.inf => F32.inf
  | F32.ninf => F32.ninf
  | F32.nan => F32.nan

/-- Little-endian 32-bit word assembled from four bytes, exactly as the
source's `DataView`-based float reads and `readUint32LE` do. -/
def leWordAt (d : List Nat) (p : Nat) : Nat :=
  byteAt d p + byteAt d (p + 1) * 2 ^ 8 + byteAt d (p + 2) * 2 ^ 16 + byteAt d (p + 3) * 2 ^ 24

/-- Big-endian 32-bit word; `(a<<24|b<<16|c<<8|d) >>> 0` equals this sum
because every byte is `< 256`. -/
def beWordAt (d : List Nat) (p : Nat) : Nat :=
  byteAt d p * 2 ^ 24 + byteAt d (p + 1) * 2 ^ 16 + byteAt d (p + 2) * 2 ^ 8 + byteAt d (p + 3)

namespace TRNParser

/-- `TRNParser.readString`: appends `String.fromCharCode(data[pos++])` while
`pos < data.length`, up to `n` chars; the cursor advances once per char. -/
def readString (d : List Nat) (p : Nat) : Nat → JStr × Nat
  | 0 => ([], p)
  | n + 1 =>
    if p < d.length then
      let r := readString d (p + 1) n
      (byteAt d p :: r.1, r.2)
    else ([], p)

/-- `TRNParser.readStringAt`: same chars, no cursor. -/
def readStringAt (d : List Nat) (p : Nat) : Nat → JStr
  | 0 => []
  | n + 1 => if p < d.length then byteAt d p :: readStringAt d (p + 1) n else []

/-- `TRNParser.readUint32BE` (cursor form): always advances 4. -/
def readUint32BE (d : List Nat) (p : Nat) : Nat × Nat := (beWordAt d p, p + 4)

/-- `TRNParser.readUint32BEAt`. -/
def readUint32BEAt (d : List Nat) (p : Nat) : Nat := beWordAt d p

/-- `TRNParser.readUint32LE` (cursor form). -/
def readUint32LE (d : List Nat) (p : Nat) : Nat × Nat := (leWordAt d p, p + 4)

/-- `TRNParser.readFloat32LE` (cursor form): decodes the LE word. -/
def readFloat32LE (d : List Nat) (p : Nat) : F32 × Nat := (f32val (leWordAt d p), p + 4)

/-- Loop body of both null-terminated string readers; `e` is the
precomputed `min (pos + maxLength) data.length`.  The fuel is the caller's
`maxLength`, which bounds the iteration count (`e - p ≤ maxLength`).
The cursor form skips the terminating null; the `-At` form reads the same
chars, so this helper returns the post-null cursor and the chars. -/
def readNTSGo (d : List Nat) (e : Nat) : Nat → Nat → JStr × Nat
  | p, 0 => ([], p)
  | p, fuel + 1 =>
    if p < e then
      if byteAt d p = 0 then ([], p + 1)
      else
        let r := readNTSGo d e (p + 1) fuel
        (byteAt d p :: r.1, r.2)
    else ([], p)

/-- `TRNParser.readNullTerminatedString` (cursor form). -/
def readNullTerminatedString (d : List Nat) (p maxLength : Nat) : JStr × Nat :=
  readNTSGo d (min (p + maxLength) d.length) p maxLength

/-- `TRNParser.readNullTerminatedStringAt` (no cursor, no null skip): the
chars it collects coincide with the cursor form's. -/
def readNullTerminatedStringAt (d : List Nat) (p maxLength : Nat) : JStr :=
  (readNTSGo d (min (p + maxLength) d.length) p maxLength).1

end TRNParser

def strUnknown : JStr := "Unknown".toList.map (fun c => c.toNat)
def strLayerDefault : JStr := "Layer".toList.map (fun c => c.toNat)
def strBoundaryCircle : JStr := "BoundaryCircle".toList.map (fun c => c.toNat)
def strBoundaryRectangle : JStr := "BoundaryRectangle".toList.map (fun c => c.toNat)
def strBoundaryPolygon : JStr := "BoundaryPolygon".toList.map (fun c => c.toNat)
def strBoundaryPolyline : JStr := "BoundaryPolyline".toList.map (fun c => c.toNat)
def strErrIFF : JStr := "Not a valid IFF file".toList.map (fun c => c.toNat)
def strErrPTAT : JStr := "Expected PTAT, got ".toList.map (fun c => c.toNat)

/-- JS truthiness of an optional string (`undefined` and `''` are falsy). -/
def jsTruthyStr : Option JStr → Bool
  | none => false
  | some s => !s.isEmpty

/-- The geometric payload of the four boundary variants
(`BoundaryCircle` / `BoundaryRectangle` / `BoundaryPolygon` /
`BoundaryPolyline` in `trnParser.ts`). -/
inductive BShape where
  | circle (centerX centerZ radius : F32)
  | rect (x1 z1 x2 z2 : F32)
  | poly (vertices : List (F32 × F32))
  | polyline (vertices : List (F32 × F32)) (width : F32)
deriving DecidableEq

/-- A boundary record: the discriminated union's shared fields plus the
variant payload.  `featherType` is a JS number (read as u32, but `applyEdit`
can overwrite it with a float), hence `F32`. -/
structure Boundary where
  shape : BShape
  name : JStr
  featherType : F32
  featherAmount : F32
  layerPath : List JStr
  offset : Nat
deriving DecidableEq

/-- The record's `type` discriminator string. -/
def Boundary.btype (b : Boundary) : JStr :=
  match b.shape with
  | BShape.circle _ _ _ => strCircle
  | BShape.rect _ _ _ _ => strRectangle
  | BShape.poly _ => strPolygon
  | BShape.polyline _ _ => strPolyline

def Boundary.radiusF (b : Boundary) : F32 :=
  match b.shape with
  | BShape.circle _ _ r => r
  | _ => F32.finite 0

def Boundary.rectX1 (b : Boundary) : F32 :=
  match b.shape with
  | BShape.rect x1 _ _ _ => x1
  | _ => F32.finite 0

def Boundary.rectZ1 (b : Boundary) : F32 :=
  match b.shape with
  | BShape.rect _ z1 _ _ => z1
  | _ => F32.finite 0

def Boundary.rectX2 (b : Boundary) : F32 :=
  match b.shape with
  | BShape.rect _ _ x2 _ => x2
  | _ => F32.finite 0

def Boundary.rectZ2 (b : Boundary) : F32 :=
  match b.shape with
  | BShape.rect _ _ _ z2 => z2
  | _ => F32.finite 0

namespace TRNParser

/-- `TRNParser.parseIHDR(size)`: walks the IHDR payload, returns the name
from the first `DATA` chunk with `chunkSize > 4` (skipping its 4-byte id),
else `'Unknown'`.  Each iteration advances the cursor by at least 4, so any
fuel at least the iteration count is exact.  In the `FORM` branch the source
does `this.pos += chunkSize - 4` after reading the form type (cursor `ft.2 ≥
p + 8`), so the `Nat` subtraction below never truncates. -/
def parseIHDR (d : List Nat) : Nat → Nat → Nat → JStr
  | 0, _, _ => strUnknown
  | fuel + 1, p, e =>
    if p < e - 8 then
      let t := readString d p 4
      let sz := readUint32BE d t.2
      if t.1 = strFORM then
        let ft := readString d sz.2 4
        parseIHDR d fuel (ft.2 + sz.1 - 4) e
      else if t.1 = strDATA then
        if 4 < sz.1 then
          (readNullTerminatedString d (sz.2 + 4) (sz.1 - 4)).1
        else parseIHDR d fuel (sz.2 + sz.1) e
      else parseIHDR d fuel (sz.2 + sz.1) e
    else strUnknown

/-- The mutable locals of `parseBCIR` / `parseBCIRInner`. -/
structure CircData where
  name : Option JStr
  foundData : Bool
  centerX : F32
  centerZ : F32
  radius : F32
  featherType : F32
  featherAmount : F32
deriving DecidableEq

def CircData.init : CircData :=
  ⟨none, false, F32.finite 0, F32.finite 0, F32.finite 0, F32.finite 0, F32.finite 0⟩

/-- The 20-byte circle `DATA` decode of `parseBCIR`/`parseBCIRInner`:
`centerX, centerZ, radius, featherType(u32), featherAmount`, sequential
little-endian cursor reads. -/
def decodeCircleFlat (d : List Nat) (p : Nat) : F32 × F32 × F32 × F32 × F32 :=
  let cx := readFloat32LE d p
  let cz := readFloat32LE d cx.2
  let r := readFloat32LE d cz.2
  let ftv := readUint32LE d r.2
  let fa := readFloat32LE d ftv.2
  (cx.1, cz.1, r.1, F32.finite (mkRat (ftv.1 : Int) 1), fa.1)

/-- `TRNParser.parseBCIRInner(size)` as a loop over the chunk list in
`[p, e)` threading the mutable locals.  `parseBCIR`'s own loop body is
literally identical (the two functions are duplicated in the source), so it
is modelled by this same loop started from `CircData.init`; only the final
defaulting of the name differs. -/
def parseBCIRInner (d : List Nat) : Nat → Nat → Nat → CircData → CircData
  | 0, _, _, st => st
  | fuel + 1, p, e, st =>
    if p < e - 8 then
      let t := readString d p 4
      let sz := readUint32BE d t.2
      let chunkEnd := sz.2 + sz.1
      if t.1 = strFORM then
        let ft := readString d sz.2 4
        if ft.1 = strIHDR then
          parseBCIRInner d fuel chunkEnd e
            { st with name := some (parseIHDR d fuel ft.2 (ft.2 + sz.1 - 4)) }
        else
          let inner := parseBCIRInner d fuel ft.2 (ft.2 + sz.1 - 4) CircData.init
          let st1 := if jsTruthyStr inner.name then { st with name := inner.name } else st
          let st2 :=
            if inner.foundData then
              { st1 with foundData := true, centerX := inner.centerX, centerZ := inner.centerZ,
                         radius := inner.radius, featherType := inner.featherType,
                         featherAmount := inner.featherAmount }
            else st1
          parseBCIRInner d fuel chunkEnd e st2
      else if t.1 = strDATA then
        if 20 ≤ sz.1 then
          let v := decodeCircleFlat d sz.2
          parseBCIRInner d fuel chunkEnd e
            { st with foundData := true, centerX := v.1, centerZ := v.2.1, radius := v.2.2.1,
                      featherType := v.2.2.2.1, featherAmount := v.2.2.2.2 }
        else parseBCIRInner d fuel chunkEnd e st
      else parseBCIRInner d fuel chunkEnd e st
    else st

/-- `TRNParser.parseBCIR(size, layerPath, offset)`: run the walk, then build
the record.  The source always returns an object (never `null`), with
zero-valued geometry when no sufficiently large `DATA` chunk was found. -/
def parseBCIR (d : List Nat) (fuel p size : Nat) (path : List JStr) (off : Nat) : Boundary :=
  let st := parseBCIRInner d fuel p (p + size) CircData.init
  { shape := BShape.circle st.centerX st.centerZ st.radius,
    name := st.name.getD strBoundaryCircle,
    featherType := st.featherType, featherAmount := st.featherAmount,
    layerPath := path, offset := off }

/-- The mutable locals of `parseBREC` / `parseBRECInner`. -/
structure RectData where
  name : Option JStr
  foundData : Bool
  x1 : F32
  z1 : F32
  x2 : F32
  z2 : F32
  featherType : F32
  featherAmount : F32
deriving DecidableEq

def RectData.init : RectData :=
  ⟨none, false, F32.finite 0, F32.finite 0, F32.finite 0, F32.finite 0, F32.finite 0, F32.finite 0⟩

/-- The 24-byte rectangle `DATA` decode of `parseBREC`/`parseBRECInner`:
`x1, z1, x2, z2, featherType(u32), featherAmount`. -/
def decodeRectFlat (d : List Nat) (p : Nat) : F32 × F32 × F32 × F32 × F32 × F32 :=
  let x1 := readFloat32LE d p
  let z1 := readFloat32LE d x1.2
  let x2 := readFloat32LE d z1.2
  let z2 := readFloat32LE d x2.2
  let ftv := readUint32LE d z2.2
  let fa := readFloat32LE d ftv.2
  (x1.1, z1.1, x2.1, z2.1, F32.finite (mkRat (ftv.1 : Int) 1), fa.1)

/-- `TRNParser.parseBRECInner(size)`; as with the circle, `parseBREC`'s loop
body is identical and is modelled by this loop from `RectData.init`. -/
def parseBRECInner (d : List Nat) : Nat → Nat → Nat → RectData → RectData
  | 0, _, _, st => st
  | fuel + 1, p, e, st =>
    if p < e - 8 then
      let t := readString d p 4
      let sz := readUint32BE d t.2
      let chunkEnd := sz.2 + sz.1
      if t.1 = strFORM then
        let ft := readString d sz.2 4
        if ft.1 = strIHDR then
          parseBRECInner d fuel chunkEnd e
            { st with name := some (parseIHDR d fuel ft.2 (ft.2 + sz.1 - 4)) }
        else
          let inner := parseBRECInner d fuel ft.2 (ft.2 + sz.1 - 4) RectData.init
          let st1 := if jsTruthyStr inner.name then { st with name := inner.name } else st
          let st2 :=
            if inner.foundData then
              { st1 with foundData := true, x1 := inner.x1, z1 := inner.z1, x2 := inner.x2,
                         z2 := inner.z2, featherType := inner.featherType,
                         featherAmount := inner.featherAmount }
            else st1
          parseBRECInner d fuel chunkEnd e st2
      else if t.1 = strDATA then
        if 24 ≤ sz.1 then
          let v := decodeRectFlat d sz.2
          parseBRECInner d fuel chunkEnd e
            { st with foundData := true, x1 := v.1, z1 := v.2.1, x2 := v.2.2.1, z2 := v.2.2.2.1,
                      featherType := v.2.2.2.2.1, featherAmount := v.2.2.2.2.2 }
        else parseBRECInner d fuel chunkEnd e st
      else parseBRECInner d fuel chunkEnd e st
    else st

/-- `TRNParser.parseBREC`: walk, then normalize the corners
(`if (x1 > x2) swap; if (z1 > z2) swap`), then build the record. -/
def parseBREC (d : List Nat) (fuel p size : Nat) (path : List JStr) (off : Nat) : Boundary :=
  let st := parseBRECInner d fuel p (p + size) RectData.init
  let xs := if f32Gt st.x1 st.x2 then (st.x2, st.x1) else (st.x1, st.x2)
  let zs := if f32Gt st.z1 st.z2 then (st.z2, st.z1) else (st.z1, st.z2)
  { shape := BShape.rect xs.1 zs.1 xs.2 zs.2,
    name := st.name.getD strBoundaryRectangle,
    featherType := st.featherType, featherAmount := st.featherAmount,
    layerPath := path, offset := off }

/-- The `for (let i = 0; i < vertexCount; i++)` vertex reads. -/
def readVertices (d : List Nat) : Nat → Nat → List (F32 × F32) × Nat
  | 0, p => ([], p)
  | n + 1, p =>
    let x := readFloat32LE d p
    let z := readFloat32LE d x.2
    let r := readVertices d n z.2
    ((x.1, z.1) :: r.1, r.2)

/-- The mutable locals of `parseBPOLInner` (no `featherType`: the inner
function skips it). -/
structure PolyData where
  name : Option JStr
  vertices : List (F32 × F32)
  featherAmount : F32
deriving DecidableEq

def PolyData.init : PolyData := ⟨none, [], F32.finite 0⟩

/-- `TRNParser.parseBPOLInner(size)`: `DATA` layout
`vertexCount(u32) | vertices(n*8) | featherType(u32, skipped) |
featherAmount`, guarded by `chunkSize >= 12`; a nested non-IHDR `FORM` is
recursed into and merged when it yielded a non-empty vertex list. -/
def parseBPOLInner (d : List Nat) : Nat → Nat → Nat → PolyData → PolyData
  | 0, _, _, st => st
  | fuel + 1, p, e, st =>
    if p < e - 8 then
      let t := readString d p 4
      let sz := readUint32BE d t.2
      let chunkEnd := sz.2 + sz.1
      if t.1 = strFORM then
        let ft := readString d sz.2 4
        if ft.1 = strIHDR then
          parseBPOLInner d fuel chunkEnd e
            { st with name := some (parseIHDR d fuel ft.2 (ft.2 + sz.1 - 4)) }
        else
          let inner := parseBPOLInner d fuel ft.2 (ft.2 + sz.1 - 4) PolyData.init
          let st1 := if jsTruthyStr inner.name then { st with name := inner.name } else st
          let st2 :=
            if 0 < inner.vertices.length then
              { st1 with vertices := inner.vertices, featherAmount := inner.featherAmount }
            else st1
          parseBPOLInner d fuel chunkEnd e st2
      else if t.1 = strDATA then
        if 12 ≤ sz.1 then
          let n := readUint32LE d sz.2
          let vs := readVertices d n.1 n.2
          let ftv := readUint32LE d vs.2
          let fa := readFloat32LE d ftv.2
          parseBPOLInner d fuel chunkEnd e
            { st with vertices := vs.1, featherAmount := fa.1 }
        else parseBPOLInner d fuel chunkEnd e st
      else parseBPOLInner d fuel chunkEnd e st
    else st

/-- The mutable locals of `parseBPOL` (the outer function additionally
keeps the `featherType` it reads from a directly-nested `DATA`). -/
structure PolySt where
  name : Option JStr
  vertices : List (F32 × F32)
  featherType : F32
  featherAmount : F32
deriving DecidableEq

def PolySt.init : PolySt := ⟨none, [], F32.finite 0, F32.finite 0⟩

/-- The loop of `TRNParser.parseBPOL(size)`: unlike the inner function it
stores `featherType` from a directly-nested `DATA`; merging from a nested
`FORM` copies only `vertices` and `featherAmount`. -/
def parseBPOLLoop (d : List Nat) : Nat → Nat → Nat → PolySt → PolySt
  | 0, _, _, st => st
  | fuel + 1, p, e, st =>
    if p < e - 8 then
      let t := readString d p 4
      let sz := readUint32BE d t.2
      let chunkEnd := sz.2 + sz.1
      if t.1 = strFORM then
        let ft := readString d sz.2 4
        if ft.1 = strIHDR then
          parseBPOLLoop d fuel chunkEnd e
            { st with name := some (parseIHDR d fuel ft.2 (ft.2 + sz.1 - 4)) }
        else
          let inner := parseBPOLInner d fuel ft.2 (ft.2 + sz.1 - 4) PolyData.init
          let st1 := if jsTruthyStr inner.name then { st with name := inner.name } else st
          let st2 :=
            if 0 < inner.vertices.length then
              { st1 with vertices := inner.vertices, featherAmount := inner.featherAmount }
            else st1
          parseBPOLLoop d fuel chunkEnd e st2
      else if t.1 = strDATA then
        if 12 ≤ sz.1 then
          let n := readUint32LE d sz.2
          let vs := readVertices d n.1 n.2
          let ftv := readUint32LE d vs.2
          let fa := readFloat32LE d ftv.2
          parseBPOLLoop d fuel chunkEnd e
            { st with vertices := vs.1, featherType := F32.finite (mkRat (ftv.1 : Int) 1),
                      featherAmount := fa.1 }
        else parseBPOLLoop d fuel chunkEnd e st
      else parseBPOLLoop d fuel chunkEnd e st
    else st

/-- `TRNParser.parseBPOL`. -/
def parseBPOL (d : List Nat) (fuel p size : Nat) (path : List JStr) (off : Nat) : Boundary :=
  let st := parseBPOLLoop d fuel p (p + size) PolySt.init
  { shape := BShape.poly st.vertices,
    name := st.name.getD strBoundaryPolygon,
    featherType := st.featherType, featherAmount := st.featherAmount,
    layerPath := path, offset := off }

/-- The mutable locals of `parseBPLN` / `parseBPLNInner` (the two loop
bodies are identical in the source, including both skipping
`featherType`). -/
structure PlinData where
  name : Option JStr
  vertices : List (F32 × F32)
  width : F32
  featherAmount : F32
deriving DecidableEq

def PlinData.init : PlinData := ⟨none, [], F32.finite 0, F32.finite 0⟩

/-- `TRNParser.parseBPLNInner(size)`: `DATA` layout `vertexCount(u32) |
vertices(n*8) | featherType(u32, skipped) | featherAmount | width`, guarded
by `chunkSize >= 16`. -/
def parseBPLNInner (d : List Nat) : Nat → Nat → Nat → PlinData → PlinData
  | 0, _, _, st => st
  | fuel + 1, p, e, st =>
    if p < e - 8 then
      let t := readString d p 4
      let sz := readUint32BE d t.2
      let chunkEnd := sz.2 + sz.1
      if t.1 = strFORM then
        let ft := readString d sz.2 4
        if ft.1 = strIHDR then
          parseBPLNInner d fuel chunkEnd e
            { st with name := some (parseIHDR d fuel ft.2 (ft.2 + sz.1 - 4)) }
        else
          let inner := parseBPLNInner d fuel ft.2 (ft.2 + sz.1 - 4) PlinData.init
          let st1 := if jsTruthyStr inner.name then { st with name := inner.name } else st
          let st2 :=
            if 0 < inner.vertices.length then
              { st1 with vertices := inner.vertices, width := inner.width,
                         featherAmount := inner.featherAmount }
            else st1
          parseBPLNInner d fuel chunkEnd e st2
      else if t.1 = strDATA then
        if 16 ≤ sz.1 then
          let n := readUint32LE d sz.2
          let vs := readVertices d n.1 n.2
          let ftv := readUint32LE d vs.2
          let fa := readFloat32LE d ftv.2
          let w := readFloat32LE d fa.2
          parseBPLNInner d fuel chunkEnd e
            { st with vertices := vs.1, featherAmount := fa.1, width := w.1 }
        else parseBPLNInner d fuel chunkEnd e st
      else parseBPLNInner d fuel chunkEnd e st
    else st

/-- `TRNParser.parseBPLN`: the record's `featherType` is the literal `0`. -/
def parseBPLN (d : List Nat) (fuel p size : Nat) (path : List JStr) (off : Nat) : Boundary :=
  let st := parseBPLNInner d fuel p (p + size) PlinData.init
  { shape := BShape.polyline st.vertices st.width,
    name := st.name.getD strBoundaryPolyline,
    featherType := F32.finite 0, featherAmount := st.featherAmount,
    layerPath := path, offset := off }

/-- Inner IHDR scan of `TRNParser.extractLayerName`: the first `DATA` chunk
with `innerSize > 4` whose decoded name (id skipped, capped at
`min 64 (innerSize - 4)` chars) is non-empty is returned. -/
def elnInner (d : List Nat) : Nat → Nat → Nat → Option JStr
  | 0, _, _ => none
  | fuel + 1, p, e =>
    if p < e - 8 then
      let tg := readStringAt d p 4
      let isz := readUint32BEAt d (p + 4)
      if tg = strDATA ∧ 4 < isz then
        let nm := readNullTerminatedStringAt d (p + 12) (min 64 (isz - 4))
        if 0 < nm.length then some nm
        else elnInner d fuel (p + 8 + isz) e
      else elnInner d fuel (p + 8 + isz) e
    else none

/-- `TRNParser.extractLayerName(start, size)` (absolute-offset reads only,
cursor untouched): returns the first IHDR-carried name, else `'Layer'`. -/
def extractLayerName (d : List Nat) : Nat → Nat → Nat → JStr
  | 0, _, _ => strLayerDefault
  | fuel + 1, p, e =>
    if p < e - 8 then
      let tg := readStringAt d p 4
      let csz := readUint32BEAt d (p + 4)
      if tg = strFORM then
        let ft := readStringAt d (p + 8) 4
        if ft = strIHDR then
          match elnInner d fuel (p + 12) (p + 8 + csz) with
          | some nm => nm
          | none => extractLayerName d fuel (p + 8 + csz) e
        else extractLayerName d fuel (p + 8 + csz) e
      else extractLayerName d fuel (p + 8 + csz) e
    else strLayerDefault

/-- `TRNParser.parseContent(start, size, boundaries, layerPath)`: walks the
sibling chunks of `[p, e)`; boundary `FORM`s append one record each (the
four boundary parsers never return `null`), `LAYR` recurses with the
extracted layer name appended to the path, other `FORM`s recurse
transparently, and non-`FORM` chunks are skipped; the cursor then continues
at `chunkStart + 8 + chunkSize` in every case. -/
def parseContent (d : List Nat) : Nat → Nat → Nat → List JStr → List Boundary
  | 0, _, _, _ => []
  | fuel + 1, p, e, path =>
    if p < e - 8 then
      let t := readString d p 4
      let sz := readUint32BE d t.2
      let next := p + 8 + sz.1
      if t.1 = strFORM then
        let ft := readString d sz.2 4
        if ft.1 = strBCIR then
          parseBCIR d fuel ft.2 (sz.1 - 4) path p :: parseContent d fuel next e path
        else if ft.1 = strBREC then
          parseBREC d fuel ft.2 (sz.1 - 4) path p :: parseContent d fuel next e path
        else if ft.1 = strBPOL then
          parseBPOL d fuel ft.2 (sz.1 - 4) path p :: parseContent d fuel next e path
        else if ft.1 = strBPLN then
          parseBPLN d fuel ft.2 (sz.1 - 4) path p :: parseContent d fuel next e path
        else if ft.1 = strLAYR then
          let nm := extractLayerName d fuel ft.2 (ft.2 + sz.1 - 4)
          parseContent d fuel ft.2 (ft.2 + sz.1 - 4) (path ++ [nm])
            ++ parseContent d fuel next e path
        else
          parseContent d fuel ft.2 (ft.2 + sz.1 - 4) path
            ++ parseContent d fuel next e path
      else parseContent d fuel next e path
    else []

end TRNParser

/-- `MapInfo` from `trnParser.ts`: each field typed by the read that
produces it (`Nat` for `readUint32LE`, `F32` for `readFloat32LE`,
`JStr` for strings, `Bool` for the `!== 0` test).  Note the source reads
`radialFarMinDistance` as a float while the other three min-distances are
u32 reads. -/
structure MapInfo where
  terrainFile : JStr
  mapSize : F32
  mapBoundsMin : F32
  mapBoundsMax : F32
  chunkWidth : F32
  tilesPerChunk : Nat
  useGlobalWaterTable : Bool
  globalWaterTableHeight : F32
  globalWaterTableShaderSize : F32
  waterShaderName : JStr
  timeCycle : F32
  floraCollidableMinDistance : Nat
  floraCollidableMaxDistance : F32
  floraCollidableTileSize : F32
  floraCollidableTileBorder : F32
  floraCollidableSeed : Nat
  floraNonCollidableMinDistance : Nat
  floraNonCollidableMaxDistance : F32
  floraNonCollidableTileSize : F32
  floraNonCollidableTileBorder : F32
  floraNonCollidableSeed : Nat
  radialNearMinDistance : Nat
  radialNearMaxDistance : F32
  radialNearTileSize : F32
  radialNearTileBorder : F32
  radialNearSeed : Nat
  radialFarMinDistance : F32
  radialFarMaxDistance : F32
  radialFarTileSize : F32
  radialFarTileBorder : F32
  radialFarSeed : Nat
deriving DecidableEq

namespace TRNParser

/-- `TRNParser.getDefaultMapInfo`. -/
def getDefaultMapInfo : MapInfo where
  terrainFile := []
  mapSize := F32.finite 16384
  mapBoundsMin := F32.finite (-8192)
  mapBoundsMax := F32.finite 8192
  chunkWidth := F32.finite 8
  tilesPerChunk := 2
  useGlobalWaterTable := false
  globalWaterTableHeight := F32.finite 0
  globalWaterTableShaderSize := F32.finite 0
  waterShaderName := []
  timeCycle := F32.finite 0
  floraCollidableMinDistance := 0
  floraCollidableMaxDistance := F32.finite 0
  floraCollidableTileSize := F32.finite 0
  floraCollidableTileBorder := F32.finite 0
  floraCollidableSeed := 0
  floraNonCollidableMinDistance := 0
  floraNonCollidableMaxDistance := F32.finite 0
  floraNonCollidableTileSize := F32.finite 0
  floraNonCollidableTileBorder := F32.finite 0
  floraNonCollidableSeed := 0
  radialNearMinDistance := 0
  radialNearMaxDistance := F32.finite 0
  radialNearTileSize := F32.finite 0
  radialNearTileBorder := F32.finite 0
  radialNearSeed := 0
  radialFarMinDistance := F32.finite 0
  radialFarMaxDistance := F32.finite 0
  radialFarTileSize := F32.finite 0
  radialFarTileBorder := F32.finite 0
  radialFarSeed := 0

/-- `TRNParser.parseMapInfoData(size)`: a fixed sequence of cursor reads
from `p` (the declared `size` is ignored by the source — there is no
truncation check, reads past the buffer end yield zero bytes). -/
def parseMapInfoData (d : List Nat) (p : Nat) : MapInfo :=
  let tf := readNullTerminatedString d p 256
  let ms := readFloat32LE d tf.2
  let cw := readFloat32LE d ms.2
  let tpc := readUint32LE d cw.2
  let ugwt := readUint32LE d tpc.2
  let gwth := readFloat32LE d ugwt.2
  let gwtss := readFloat32LE d gwth.2
  let wsn := readNullTerminatedString d gwtss.2 64
  let tc := readFloat32LE d wsn.2
  let fc1 := readUint32LE d tc.2
  let fc2 := readFloat32LE d fc1.2
  let fc3 := readFloat32LE d fc2.2
  let fc4 := readFloat32LE d fc3.2
  let fc5 := readUint32LE d fc4.2
  let fn1 := readUint32LE d fc5.2
  let fn2 := readFloat32LE d fn1.2
  let fn3 := readFloat32LE d fn2.2
  let fn4 := readFloat32LE d fn3.2
  let fn5 := readUint32LE d fn4.2
  let rn1 := readUint32LE d fn5.2
  let rn2 := readFloat32LE d rn1.2
  let rn3 := readFloat32LE d rn2.2
  let rn4 := readFloat32LE d rn3.2
  let rn5 := readUint32LE d rn4.2
  let rf1 := readFloat32LE d rn5.2
  let rf2 := readFloat32LE d rf1.2
  let rf3 := readFloat32LE d rf2.2
  let rf4 := readFloat32LE d rf3.2
  let rf5 := readUint32LE d rf4.2
  { terrainFile := tf.1
    mapSize := ms.1
    mapBoundsMin := f32half (f32neg ms.1)
    mapBoundsMax := f32half ms.1
    chunkWidth := cw.1
    tilesPerChunk := tpc.1
    useGlobalWaterTable := ugwt.1 ≠ 0
    globalWaterTableHeight := gwth.1
    globalWaterTableShaderSize := gwtss.1
    waterShaderName := wsn.1
    timeCycle := tc.1
    floraCollidableMinDistance := fc1.1
    floraCollidableMaxDistance := fc2.1
    floraCollidableTileSize := fc3.1
    floraCollidableTileBorder := fc4.1
    floraCollidableSeed := fc5.1
    floraNonCollidableMinDistance := fn1.1
    floraNonCollidableMaxDistance := fn2.1
    floraNonCollidableTileSize := fn3.1
    floraNonCollidableTileBorder := fn4.1
    floraNonCollidableSeed := fn5.1
    radialNearMinDistance := rn1.1
    radialNearMaxDistance := rn2.1
    radialNearTileSize := rn3.1
    radialNearTileBorder := rn4.1
    radialNearSeed := rn5.1
    radialFarMinDistance := rf1.1
    radialFarMaxDistance := rf2.1
    radialFarTileSize := rf3.1
    radialFarTileBorder := rf4.1
    radialFarSeed := rf5.1 }

/-- `TRNParser.parseMapInfo`: jumps to offset 12, expects
`FORM <size> <type> DATA <size>`, and decodes from the `DATA` payload;
any other shape yields `getDefaultMapInfo`.  The saved/restored cursor has
no other effect and is omitted.  A present `DATA` tag is decoded
unconditionally — its declared size is never compared with the layout's
length. -/
def parseMapInfo (d : List Nat) : MapInfo :=
  let t := readString d 12 4
  let sz := readUint32BE d t.2
  if t.1 = strFORM then
    let skip := readString d sz.2 4
    let dt := readString d skip.2 4
    let dsz := readUint32BE d dt.2
    if dt.1 = strDATA then parseMapInfoData d dsz.2
    else getDefaultMapInfo
  else getDefaultMapInfo

end TRNParser

/-- The `TRNDocument` result interface of `trnParser.ts` (`layers` is the
literal `[]` in the source and is omitted). -/
structure TRNDoc where
  filename : JStr
  boundaries : List Boundary
  mapInfo : MapInfo
deriving DecidableEq

namespace TRNParser

/-- `TRNParser.parse`: the only two `throw` sites in the whole parser are
the `'FORM'` and `'PTAT'` header checks (modelled as `Except.error`);
everything after them is total — every reader coerces out-of-range bytes to
zero instead of throwing. -/
def parse (d : List Nat) (fuel : Nat) : Except JStr TRNDoc :=
  let t := readString d 0 4
  if t.1 = strFORM then
    let sz := readUint32BE d t.2
    let ty := readString d sz.2 4
    if ty.1 = strPTAT then
      let mi := parseMapInfo d
      let bs := parseContent d fuel ty.2 (ty.2 + sz.1 - 4) []
      Except.ok { filename := mi.terrainFile, boundaries := bs, mapInfo := mi }
    else Except.error (strErrPTAT ++ ty.1)
  else Except.error strErrIFF

end TRNParser

/-- The optional decoded-payload bag of a tree node (`node.data` in
`trnTree.ts`; only the properties the tree builder ever assigns). -/
structure DataBag where
  name : Option JStr := none
  centerX : Option F32 := none
  centerZ : Option F32 := none
  radius : Option F32 := none
  featherType : Option Nat := none
  featherAmount : Option F32 := none
  x1 : Option F32 := none
  z1 : Option F32 := none
  x2 : Option F32 := none
  z2 : Option F32 := none
  vertexCount : Option Nat := none
  width : Option F32 := none
deriving DecidableEq

/-- `TRNNode` from `trnTree.ts` (`hasError`/`errorMessage` are only ever
assigned by the external validator and are omitted).  `size` stores
`chunkSize + 8` as in the source. -/
inductive TRNNode where
  | mk (id : JStr) (type : JStr) (name : JStr) (offset : Nat) (size : Nat)
       (children : List TRNNode) (data : DataBag)

def TRNNode.id : TRNNode → JStr
  | .mk i _ _ _ _ _ _ => i

def TRNNode.type : TRNNode → JStr
  | .mk _ t _ _ _ _ _ => t

def TRNNode.name : TRNNode → JStr
  | .mk _ _ n _ _ _ _ => n

def TRNNode.offset : TRNNode → Nat
  | .mk _ _ _ o _ _ _ => o

def TRNNode.size : TRNNode → Nat
  | .mk _ _ _ _ s _ _ => s

def TRNNode.children : TRNNode → List TRNNode
  | .mk _ _ _ _ _ cs _ => cs

def TRNNode.data : TRNNode → DataBag
  | .mk _ _ _ _ _ _ b => b

namespace TRNTreeParser

/-- `TRNTreeParser.readString` (cursor form, bounded by the buffer). -/
def readString (d : List Nat) (p : Nat) : Nat → JStr × Nat
  | 0 => ([], p)
  | n + 1 =>
    if p < d.length then
      let r := readString d (p + 1) n
      (byteAt d p :: r.1, r.2)
    else ([], p)

/-- `TRNTreeParser.peekString`. -/
def peekString (d : List Nat) (p : Nat) : Nat → JStr
  | 0 => []
  | n + 1 => if p < d.length then byteAt d p :: peekString d (p + 1) n else []

/-- `TRNTreeParser.readUint32BE` (cursor form). -/
def readUint32BE (d : List Nat) (p : Nat) : Nat × Nat := (beWordAt d p, p + 4)

/-- `TRNTreeParser.readUint32BEAt`. -/
def readUint32BEAt (d : List Nat) (p : Nat) : Nat := beWordAt d p

/-- `TRNTreeParser.readUint32LE` (cursor form). -/
def readUint32LE (d : List Nat) (p : Nat) : Nat × Nat := (leWordAt d p, p + 4)

/-- `TRNTreeParser.readUint32LEAt`. -/
def readUint32LEAt (d : List Nat) (p : Nat) : Nat := leWordAt d p

/-- `TRNTreeParser.readFloat32LEAt`. -/
def readFloat32LEAt (d : List Nat) (p : Nat) : F32 := f32val (leWordAt d p)

/-- One `CHUNK_DESCRIPTIONS` entry key. -/
def tagOf (s : String) : JStr := s.toList.map (fun c => c.toNat)

/-- The `CHUNK_DESCRIPTIONS` table. -/
def chunkDescriptions : List (JStr × JStr) :=
  [ (tagOf "PTAT", tagOf "Terrain File"), (tagOf "TGEN", tagOf "Terrain Generator"),
    (tagOf "LYRS", tagOf "Layers Container"), (tagOf "LAYR", tagOf "Layer"),
    (tagOf "SGRP", tagOf "Shader Group"), (tagOf "SFAM", tagOf "Shader Family"),
    (tagOf "FGRP", tagOf "Flora Group"), (tagOf "FFAM", tagOf "Flora Family"),
    (tagOf "RGRP", tagOf "Radial Group"), (tagOf "RFAM", tagOf "Radial Family"),
    (tagOf "EGRP", tagOf "Environment Group"), (tagOf "EFAM", tagOf "Environment Family"),
    (tagOf "MGRP", tagOf "Multi-Fractal Group"), (tagOf "MFAM", tagOf "Multi-Fractal Family"),
    (tagOf "MFRC", tagOf "Fractal Settings"),
    (tagOf "BCIR", tagOf "Boundary Circle"), (tagOf "BREC", tagOf "Boundary Rectangle"),
    (tagOf "BPOL", tagOf "Boundary Polygon"), (tagOf "BPLN", tagOf "Boundary Polyline"),
    (tagOf "FFRA", tagOf "Filter Fractal"), (tagOf "FSLP", tagOf "Filter Slope"),
    (tagOf "FHGT", tagOf "Filter Height"), (tagOf "FSHD", tagOf "Filter Shader"),
    (tagOf "FBIT", tagOf "Filter Bitmap"), (tagOf "FDIR", tagOf "Filter Direction"),
    (tagOf "AENV", tagOf "Affector Environment"), (tagOf "ASCN", tagOf "Affector Shader Constant"),
    (tagOf "AFDN", tagOf "Affector Flora Near"), (tagOf "AFDF", tagOf "Affector Flora Far"),
    (tagOf "AFSN", tagOf "Affector Flora Static Near"),
    (tagOf "AFSC", tagOf "Affector Flora Static Collidable"),
    (tagOf "ACRF", tagOf "Affector Color Ramp Fractal"),
    (tagOf "AHCN", tagOf "Affector Height Constant"), (tagOf "AHFR", tagOf "Affector Height Fractal"),
    (tagOf "AHTR", tagOf "Affector Height Terrace"), (tagOf "ACCN", tagOf "Affector Color Constant"),
    (tagOf "AEXC", tagOf "Affector Exclude"), (tagOf "ARIV", tagOf "Affector River"),
    (tagOf "AROD", tagOf "Affector Road"),
    (tagOf "IHDR", tagOf "Item Header"), (tagOf "DATA", tagOf "Data"),
    (tagOf "ADTA", tagOf "Additional Data"), (tagOf "PARM", tagOf "Parameters"),
    (tagOf "WMAP", tagOf "Water Map"), (tagOf "SMAP", tagOf "Shader Map") ]

/-- `TRNTreeParser.getChunkName`. -/
def getChunkName (t : JStr) : JStr := (chunkDescriptions.lookup t).getD t

/-- One char class of `/^[A-Z0-9]{4}$/`. -/
def tagCharOk (b : Nat) : Bool := (65 ≤ b && b ≤ 90) || (48 ≤ b && b ≤ 57)

/-- `TRNTreeParser.isValidTag`. -/
def isValidTag (s : JStr) : Bool := s.length = 4 && s.all tagCharOk

/-- One char class of `/^[\w\s_-]+$/` restricted to printable ASCII (the
scan below only collects bytes in `[32, 127)`, so of `\s` only the space
can occur). -/
def nameCharOk (b : Nat) : Bool :=
  (65 ≤ b && b ≤ 90) || (97 ≤ b && b ≤ 122) || (48 ≤ b && b ≤ 57) || b = 95 || b = 32 || b = 45

def validNameStr (s : JStr) : Bool := !s.isEmpty && s.all nameCharOk

/-- The byte scan of `TRNTreeParser.parseDATA`: collect printable bytes
until a NUL, a non-printable byte, the chunk end or 256 chars (bytes past
the buffer end compare as `undefined` and stop the scan, as does the `0`
our model reads there). -/
def nameScan (d : List Nat) : Nat → Nat → JStr
  | _, 0 => []
  | p, n + 1 =>
    let b := byteAt d p
    if b = 0 then []
    else if 32 ≤ b && b < 127 then b :: nameScan d (p + 1) n
    else []

/-- `TRNTreeParser.parseDATA`: skip the 4-byte id, scan for a printable
name, accept it only if it matches the name pattern.  `contentPos` is the
chunk payload start (`offset + 8`), `size` the declared chunk size. -/
def parseDATAName (d : List Nat) (contentPos size : Nat) : Option JStr :=
  if size < 4 then none
  else
    let remaining := size - 4
    if 0 < remaining then
      let nm := nameScan d (contentPos + 4) (min remaining 256)
      if 0 < nm.length && validNameStr nm then some nm else none
    else none

/-- The circle branch of `TRNTreeParser.extractBoundaryData`: absolute
reads at `dataStart + 0/4/8/12/16`. -/
def decodeCircleTree (d : List Nat) (s : Nat) : F32 × F32 × F32 × Nat × F32 :=
  (readFloat32LEAt d s, readFloat32LEAt d (s + 4), readFloat32LEAt d (s + 8),
   readUint32LEAt d (s + 12), readFloat32LEAt d (s + 16))

/-- The rectangle branch of `TRNTreeParser.extractBoundaryData`: absolute
reads at `dataStart + 0/4/8/12/16/20`, no normalization. -/
def decodeRectTree (d : List Nat) (s : Nat) : F32 × F32 × F32 × F32 × Nat × F32 :=
  (readFloat32LEAt d s, readFloat32LEAt d (s + 4), readFloat32LEAt d (s + 8),
   readFloat32LEAt d (s + 12), readUint32LEAt d (s + 16), readFloat32LEAt d (s + 20))

/-- The polygon/polyline branch of `TRNTreeParser.extractBoundaryData`:
`vertexCount` at offset 0 and — unlike the flat parser — `featherAmount`
read at offset 4 (where the flat parser's layout puts the first vertex),
plus `width` at offset 8 for polylines. -/
def decodePolyTree (d : List Nat) (s : Nat) : Nat × F32 :=
  (readUint32LEAt d s, readFloat32LEAt d (s + 4))

/-- `TRNTreeParser.extractBoundaryData(parent, dataNode)`, acting on the
parent's bag. -/
def extractBoundaryData (d : List Nat) (ptype : JStr) (bag : DataBag) (dataNode : TRNNode) :
    DataBag :=
  let dataStart := dataNode.offset + 8
  let dataSize := dataNode.size - 8
  if ptype = strBCIR ∧ 20 ≤ dataSize then
    let v := decodeCircleTree d dataStart
    { bag with centerX := some v.1, centerZ := some v.2.1, radius := some v.2.2.1,
               featherType := some v.2.2.2.1, featherAmount := some v.2.2.2.2 }
  else if ptype = strBREC ∧ 24 ≤ dataSize then
    let v := decodeRectTree d dataStart
    { bag with x1 := some v.1, z1 := some v.2.1, x2 := some v.2.2.1, z2 := some v.2.2.2.1,
               featherType := some v.2.2.2.2.1, featherAmount := some v.2.2.2.2.2 }
  else if (ptype = strBPOL ∨ ptype = strBPLN) ∧ 8 ≤ dataSize then
    let v := decodePolyTree d dataStart
    let bag1 := { bag with vertexCount := some v.1, featherAmount := some v.2 }
    if ptype = strBPLN ∧ 12 ≤ dataSize then
      { bag1 with width := some (readFloat32LEAt d (dataStart + 8)) }
    else bag1
  else bag

/-- `TRNTreeParser.extractNodeData(parent, child)`, acting on the parent's
bag (the parent's `type` suffices). -/
def extractNodeData (d : List Nat) (ptype : JStr) (bag : DataBag) (child : TRNNode) : DataBag :=
  let bag1 :=
    if (child.type = strIHDR ∨ child.type = strDATA) ∧
        (jsTruthyStr child.data.name ∧ ¬ jsTruthyStr bag.name) then
      { bag with name := child.data.name }
    else bag
  let bag2 :=
    if child.type = strIHDR then
      match child.children.find? (fun g => jsTruthyStr g.data.name) with
      | some g => { bag1 with name := g.data.name }
      | none => bag1
    else bag1
  if child.type = strDATA ∧
      (ptype = strBCIR ∨ ptype = strBREC ∨ ptype = strBPOL ∨ ptype = strBPLN) then
    extractBoundaryData d ptype bag2 child
  else bag2

def strColonSp : JStr := ": ".toList.map (fun c => c.toNat)
def strDATAColon : JStr := "DATA: ".toList.map (fun c => c.toNat)

/-- `node_${k}`. -/
def nodeIdStr (k : Nat) : JStr :=
  ("node_".toList.map (fun c => c.toNat)) ++ ((toString k).toList.map (fun c => c.toNat))

def dummyNode : TRNNode := TRNNode.mk [] [] [] 0 0 [] {}

mutual

/-- `TRNTreeParser.parseChunk(startOffset)` with the node-id counter `k`
threaded; returns the node and the next id.  The caller recomputes its own
cursor from the child's header, so no cursor is returned. -/
def parseChunk (d : List Nat) : Nat → Nat → Nat → TRNNode × Nat
  | 0, _, k => (dummyNode, k)
  | fuel + 1, start, k =>
    let t := readString d start 4
    let sz := readUint32BE d t.2
    if t.1 = strFORM then
      let ft := readString d sz.2 4
      let contentEnd := start + 8 + sz.1
      let r := formChildren d fuel contentEnd ft.2 (k + 1) ft.1 [] {}
      let bag := r.2.1
      let nm :=
        if jsTruthyStr bag.name then getChunkName ft.1 ++ strColonSp ++ bag.name.getD []
        else getChunkName ft.1
      (TRNNode.mk (nodeIdStr k) ft.1 nm start (sz.1 + 8) r.1 bag, r.2.2)
    else
      let bag : DataBag :=
        if t.1 = strDATA then
          match parseDATAName d (start + 8) sz.1 with
          | some nm => { name := some nm }
          | none => {}
        else {}
      let nm :=
        match bag.name with
        | some n => strDATAColon ++ n
        | none => getChunkName t.1
      (TRNNode.mk (nodeIdStr k) t.1 nm start (sz.1 + 8) [] bag, k + 1)
termination_by structural fuel _ _ => fuel

/-- The child loop of `TRNTreeParser.parseFORM`: an invalid 4-byte peek
advances one byte (resynchronization); a valid one parses the child,
feeds it to `extractNodeData` and advances by `8 + size` read at the
child's header. -/
def formChildren (d : List Nat) :
    Nat → Nat → Nat → Nat → JStr → List TRNNode → DataBag → List TRNNode × DataBag × Nat
  | 0, _, _, k, _, acc, bag => (acc.reverse, bag, k)
  | fuel + 1, contentEnd, pos, k, ptype, acc, bag =>
    if pos < contentEnd - 8 then
      let ctag := peekString d pos 4
      if isValidTag ctag then
        let c := parseChunk d fuel pos k
        let bag' := extractNodeData d ptype bag c.1
        let next := pos + 8 + readUint32BEAt d (pos + 4)
        formChildren d fuel contentEnd next c.2 ptype (c.1 :: acc) bag'
      else formChildren d fuel contentEnd (pos + 1) k ptype acc bag
    else (acc.reverse, bag, k)
termination_by structural fuel _ _ _ _ _ _ => fuel

end

/-- `TRNTreeParser.parse` (root only; the `boundaries`/`layers` side lists
are convenience collections of node references and are not needed by any
function modelled here). -/
def parseTree (d : List Nat) (fuel : Nat) : TRNNode := (parseChunk d fuel 0 0).1

end TRNTreeParser

/-- Membership test used all over `trnTree.ts`:
`['BCIR','BREC','BPOL','BPLN'].includes(t)`. -/
def isBoundaryTypeTag (t : JStr) : Bool :=
  t = strBCIR || t = strBREC || t = strBPOL || t = strBPLN

mutual

/-- `getBoundariesInLayer`'s `collect`: the node itself if it is a
boundary, then its children recursively (pre-order). -/
def collectBoundaries : TRNNode → List TRNNode
  | TRNNode.mk i t nm o s cs b =>
    (if isBoundaryTypeTag t then [TRNNode.mk i t nm o s cs b] else []) ++ collectBoundariesList cs

def collectBoundariesList : List TRNNode → List TRNNode
  | [] => []
  | c :: cs => collectBoundaries c ++ collectBoundariesList cs

end

/-- `getBoundariesInLayer(layerNode)` from `trnTree.ts`. -/
def getBoundariesInLayer (n : TRNNode) : List TRNNode := collectBoundaries n

/-- `LayerInfo` from `trnTree.ts`: note it carries a single count field
`boundaryCount` (plus name, depth and parent linkage). -/
structure LayerInfo where
  node : TRNNode
  name : JStr
  boundaryCount : Nat
  depth : Nat
  parentId : Option JStr

/-- `Layer ${k+1}`, the positional fallback name (`layers.length` at push
time is threaded as `k`). -/
def layerFallback (k : Nat) : JStr :=
  ("Layer ".toList.map (fun c => c.toNat)) ++ ((toString (k + 1)).toList.map (fun c => c.toNat))

mutual

/-- `getLayerHierarchy`'s `traverse(node, depth, parentId)`: a `LAYR` node
pushes its entry — whose `boundaryCount` is `getBoundariesInLayer(node).length`,
i.e. the total including nested layers (the `directBoundaries` the source
computes is never stored) — then traverses its children at `depth + 1` with
itself as parent; any other node passes `depth`/`parentId` through. -/
def lhGo : TRNNode → Nat → Option JStr → Nat → List LayerInfo × Nat
  | TRNNode.mk i t nm o s cs bag, depth, pid, k =>
    if t = strLAYR then
      let e : LayerInfo :=
        ⟨TRNNode.mk i t nm o s cs bag,
         (match bag.name with
          | some n => if n.isEmpty then layerFallback k else n
          | none => layerFallback k),
         (getBoundariesInLayer (TRNNode.mk i t nm o s cs bag)).length, depth, pid⟩
      let r := lhGoList cs (depth + 1) (some i) (k + 1)
      (e :: r.1, r.2)
    else lhGoList cs depth pid k

def lhGoList : List TRNNode → Nat → Option JStr → Nat → List LayerInfo × Nat
  | [], _, _, k => ([], k)
  | c :: cs, depth, pid, k =>
    let r := lhGo c depth pid k
    let r2 := lhGoList cs depth pid r.2
    (r.1 ++ r2.1, r2.2)

end

/-- `getLayerHierarchy(root)` from `trnTree.ts`. -/
def getLayerHierarchy (root : TRNNode) : List LayerInfo := (lhGo root 0 none 0).1

namespace TRNDocument

/-- JS indexing with a possibly negative offset (`TRNDocument`'s walk uses
signed arithmetic): negative and past-the-end indices give `undefined`,
which coerces to 0. -/
def byteAtI (d : List Nat) (p : Int) : Nat := if p < 0 then 0 else byteAt d p.toNat

/-- `TRNDocument.readString(offset, length)`: no bounds check at all —
`String.fromCharCode(undefined)` is `'\0'`, so the result always has
`length` chars, out-of-range positions contributing NULs. -/
def readString (d : List Nat) (p : Int) : Nat → JStr
  | 0 => []
  | n + 1 => byteAtI d p :: readString d (p + 1) n

/-- `TRNDocument.readUint32BE(offset)`: unlike the two parsers' readers
this one has no `>>> 0`, so it returns a **signed** 32-bit value. -/
def readUint32BE (d : List Nat) (p : Int) : Int :=
  let v : Nat := byteAtI d p * 2 ^ 24 + byteAtI d (p + 1) * 2 ^ 16 +
                 byteAtI d (p + 2) * 2 ^ 8 + byteAtI d (p + 3)
  if v < 2 ^ 31 then (v : Int) else (v : Int) - 2 ^ 32

/-- `TRNDocument.writeFloat32LE(offset, value)`: the UI passes
float32-representable numbers, modelled by their 32-bit pattern `w`;
`DataView.setFloat32(..., true)` produces exactly the four little-endian
bytes of that pattern, and a typed-array store at an out-of-range index is
silently ignored — precisely `List.set`'s behaviour. -/
def writeFloat32LE (d : List Nat) (o : Nat) (w : Nat) : List Nat :=
  ((((d.set o (w % 2 ^ 8)).set (o + 1) (w / 2 ^ 8 % 2 ^ 8)).set
      (o + 2) (w / 2 ^ 16 % 2 ^ 8)).set (o + 3) (w / 2 ^ 24 % 2 ^ 8))

/-- `TRNDocument.findDataChunkRecursive(start, end, boundaryType)` (the
`boundaryType` argument is never used by the source).  Returns
`some (some o)` for a found `DATA` payload offset, `some none` for the
source's `-1`, and `none` when the fuel ran out.  The latter is a real
behaviour: because the size read is *signed*, a crafted chunk whose size
field decodes to `-8` makes `pos += 8 + size` loop forever, so for such
inputs the walk diverges at every fuel. -/
def findDataChunkRecursive (d : List Nat) : Nat → Int → Int → Option (Option Nat)
  | 0, _, _ => none
  | fuel + 1, pos, e =>
    if pos < e - 8 then
      let tag := readString d pos 4
      let sz := readUint32BE d (pos + 4)
      if tag = strDATA then some (some (pos + 8).toNat)
      else if tag = strFORM then
        match findDataChunkRecursive d fuel (pos + 12) (pos + 8 + sz) with
        | none => none
        | some (some r) => some (some r)
        | some none => findDataChunkRecursive d fuel (pos + 8 + sz) e
      else findDataChunkRecursive d fuel (pos + 8 + sz) e
    else some none

/-- `TRNDocument.findDataOffset(boundary)`: re-walk from the record's
stored group offset.  The `formOffset === undefined` guard cannot fire in
the model (the field is total); the form-type read at `formOffset + 8` only
advances the local position to `formOffset + 12`. -/
def findDataOffset (d : List Nat) (fuel : Nat) (b : Boundary) : Option (Option Nat) :=
  let fo : Int := (b.offset : Int)
  let formSize := readUint32BE d (fo + 4)
  findDataChunkRecursive d fuel (fo + 12) (fo + 8 + formSize)

/-- `TRNDocument.getFieldOffset(type, field)`: the static per-type layout
table; `-1` becomes `none`. -/
def getFieldOffset (ty f : JStr) : Option Nat :=
  if ty = strCircle then
    if f = strCenterX then some 0
    else if f = strCenterZ then some 4
    else if f = strRadius then some 8
    else if f = strFeatherType then some 12
    else if f = strFeatherAmount then some 16
    else none
  else if ty = strRectangle then
    if f = strX1 then some 0
    else if f = strZ1 then some 4
    else if f = strX2 then some 8
    else if f = strZ2 then some 12
    else if f = strFeatherType then some 16
    else if f = strFeatherAmount then some 20
    else none
  else if ty = strPolygon then
    if f = strFeatherAmount then some 4 else none
  else if ty = strPolyline then
    if f = strFeatherAmount then some 4
    else if f = strWidth then some 8
    else none
  else none

/-- `(boundary as any)[field] = value`: update the named field of the
in-memory record.  Only combinations admitted by `getFieldOffset` are
reachable from `applyEdit`; others leave the record unchanged. -/
def setField (b : Boundary) (f : JStr) (v : F32) : Boundary :=
  match b.shape with
  | BShape.circle cx cz r =>
    if f = strCenterX then { b with shape := BShape.circle v cz r }
    else if f = strCenterZ then { b with shape := BShape.circle cx v r }
    else if f = strRadius then { b with shape := BShape.circle cx cz v }
    else if f = strFeatherType then { b with featherType := v }
    else if f = strFeatherAmount then { b with featherAmount := v }
    else b
  | BShape.rect x1 z1 x2 z2 =>
    if f = strX1 then { b with shape := BShape.rect v z1 x2 z2 }
    else if f = strZ1 then { b with shape := BShape.rect x1 v x2 z2 }
    else if f = strX2 then { b with shape := BShape.rect x1 z1 v z2 }
    else if f = strZ2 then { b with shape := BShape.rect x1 z1 x2 v }
    else if f = strFeatherType then { b with featherType := v }
    else if f = strFeatherAmount then { b with featherAmount := v }
    else b
  | BShape.poly _ =>
    if f = strFeatherType then { b with featherType := v }
    else if f = strFeatherAmount then { b with featherAmount := v }
    else b
  | BShape.polyline vs _ =>
    if f = strFeatherType then { b with featherType := v }
    else if f = strFeatherAmount then { b with featherAmount := v }
    else if f = strWidth then { b with shape := BShape.polyline vs v }
    else b

/-- `TRNDocument.applyEdit(boundaryIndex, field, value)` acting on the
document state `(data, boundaries)`.  The checks run strictly before the
write: missing record, `-1` from the walk, or `-1` from the field table
return `false` with the state untouched; otherwise the 4-byte window is
stored and the in-memory record mirrored.  `none` models the walk looping
forever (no return at all). -/
def applyEdit (d : List Nat) (bs : List Boundary) (fuel idx : Nat) (f : JStr) (w : Nat) :
    Option (Bool × List Nat × List Boundary) :=
  match bs.get? idx with
  | none => some (false, d, bs)
  | some b =>
    match findDataOffset d fuel b with
    | none => none
    | some none => some (false, d, bs)
    | some (some dOff) =>
      match getFieldOffset b.btype f with
      | none => some (false, d, bs)
      | some fOff =>
        some (true, writeFloat32LE d (dOff + fOff) w, bs.set idx (setField b f (f32val w)))

end TRNDocument



/-! ### Auxiliary definitions used by the theorems -/

namespace TRNParser

/-- Does the `parseBCIR`/`parseBCIRInner` walk over `[p, e)` encounter any
`DATA` chunk of declared size ≥ 20 — the only branch that ever assigns
circle geometry?  Mirrors the walk's traversal exactly: IHDR subtrees are
name-only, other nested `FORM`s are recursed into, everything else is
skipped. -/
def bcirHasData (d : List Nat) : Nat → Nat → Nat → Bool
  | 0, _, _ => false
  | fuel + 1, p, e =>
    if p < e - 8 then
      let t := readString d p 4
      let sz := readUint32BE d t.2
      let chunkEnd := sz.2 + sz.1
      if t.1 = strFORM then
        let ft := readString d sz.2 4
        if ft.1 = strIHDR then bcirHasData d fuel chunkEnd e
        else bcirHasData d fuel ft.2 (ft.2 + sz.1 - 4) || bcirHasData d fuel chunkEnd e
      else if t.1 = strDATA then
        if 20 ≤ sz.1 then true else bcirHasData d fuel chunkEnd e
      else bcirHasData d fuel chunkEnd e
    else false

end TRNParser

/-- The spec's contract for a 4-byte read ("out-of-range reads must fail
with a bounds error"): defined only to state that contract, for comparison
with what the code's readers actually do. -/
def readUint32BEChecked (d : List Nat) (p : Nat) : Option Nat :=
  if p + 4 ≤ d.length then some (beWordAt d p) else none

/-- Little-endian checked variant of the same contract. -/
def readUint32LEChecked (d : List Nat) (p : Nat) : Option Nat :=
  if p + 4 ≤ d.length then some (leWordAt d p) else none

/-! ### Concrete test vectors (IFF byte buffers) -/

/-- A minimal well-formed file: `FORM 44 PTAT` containing one `FORM 32 BCIR`
whose only child is a 20-byte geometry `DATA` (radius bytes encode 7.0f =
`0x40E00000`).  The geometry payload starts at offset 32. -/
def c3buf : List Nat :=
  [70,79,82,77, 0,0,0,44, 80,84,65,84,
   70,79,82,77, 0,0,0,32, 66,67,73,82,
   68,65,84,65, 0,0,0,20,
   0,0,0,0, 0,0,0,0, 0,0,224,64, 0,0,0,0, 0,0,0,0]

/-- A circle boundary in the layout real files use: the `BCIR` group holds
an `IHDR` (whose `DATA` carries a 4-byte id and the name `'Ab'`, payload at
offset 44) *before* the 20-byte geometry `DATA` (payload at offset 60,
radius bytes `0x422A0000` = 42.5f at offset 68). -/
def c1buf : List Nat :=
  [70,79,82,77, 0,0,0,72, 80,84,65,84,
   70,79,82,77, 0,0,0,60, 66,67,73,82,
   70,79,82,77, 0,0,0,20, 73,72,68,82,
   68,65,84,65, 0,0,0,8, 1,0,0,0, 65,98,0,0,
   68,65,84,65, 0,0,0,20,
   0,0,0,0, 0,0,0,0, 0,0,42,66, 0,0,0,0, 0,0,0,0]

/-- A polygon boundary: `BPOL` with a 20-byte `DATA`: `vertexCount = 1`,
one vertex `(3.0f, 0)`, `featherType = 0`, `featherAmount = 2.0f`
(`0x40000000`).  The byte word at payload offset 4 is `0x40400000` = 3.0f
(the vertex x), which is where the tree builder reads `featherAmount`. -/
def c2buf : List Nat :=
  [70,79,82,77, 0,0,0,44, 80,84,65,84,
   70,79,82,77, 0,0,0,32, 66,80,79,76,
   68,65,84,65, 0,0,0,20,
   1,0,0,0, 0,0,64,64, 0,0,0,0, 0,0,0,0, 0,0,0,64]

/-- A rectangle whose `x1` bytes are a NaN pattern (`0x7FC00000`) and whose
`x2` is 5.0f. -/
def c10buf : List Nat :=
  [70,79,82,77, 0,0,0,48, 80,84,65,84,
   70,79,82,77, 0,0,0,36, 66,82,69,67,
   68,65,84,65, 0,0,0,24,
   0,0,192,127, 0,0,0,0, 0,0,160,64, 0,0,0,0, 0,0,0,0, 0,0,0,0]

/-- The spec's normalization example: a rectangle with raw `x1` = 100.0f
(`0x42C80000`) and raw `x2` = -50.0f (`0xC2480000`). -/
def c10wbuf : List Nat :=
  [70,79,82,77, 0,0,0,48, 80,84,65,84,
   70,79,82,77, 0,0,0,36, 66,82,69,67,
   68,65,84,65, 0,0,0,24,
   0,0,200,66, 0,0,0,0, 0,0,72,194, 0,0,0,0, 0,0,0,0, 0,0,0,0]

/-- A `BCIR` whose `DATA` declares size 20 but the buffer ends right after
the declared header: the parser reads zero geometry past the end; the
found payload offset is 32 = the buffer length, so the later radius write
at offset 40 falls entirely outside the buffer. -/
def c4buf : List Nat :=
  [70,79,82,77, 0,0,0,28, 80,84,65,84,
   70,79,82,77, 0,0,0,16, 66,67,73,82,
   68,65,84,65, 0,0,0,20]

/-- A valid outer header whose global-parameter `DATA` is present at the
expected position but truncated to size 0 with nothing after it. -/
def c6trunc : List Nat :=
  [70,79,82,77, 0,0,0,24, 80,84,65,84,
   70,79,82,77, 0,0,0,12, 48,48,49,52,
   68,65,84,65, 0,0,0,0]

/-- A file that is nothing but the 12-byte header — no nested `FORM` at
offset 12 at all. -/
def c6nobuf : List Nat :=
  [70,79,82,77, 0,0,0,4, 80,84,65,84]

/-- The spec's malformed-boundary example: a `BCIR` whose `DATA` is only 10
bytes (below the 20-byte minimum), followed by a sibling well-formed `BCIR`
with radius 5.0f (`0x40A00000`). -/
def c7buf : List Nat :=
  [70,79,82,77, 0,0,0,74, 80,84,65,84,
   70,79,82,77, 0,0,0,22, 66,67,73,82,
   68,65,84,65, 0,0,0,10, 1,2,3,4,5,6,7,8,9,10,
   70,79,82,77, 0,0,0,32, 66,67,73,82,
   68,65,84,65, 0,0,0,20,
   0,0,0,0, 0,0,0,0, 0,0,160,64, 0,0,0,0, 0,0,0,0]

/-- Hand-built generic tree for the spec's layer example: a root whose
layer `A` directly contains 1 boundary and a nested layer `B` that
contains 2 boundaries. -/
def c8bnd1 : TRNNode := TRNNode.mk [99,49] strBCIR [] 0 0 [] {}
def c8bnd2 : TRNNode := TRNNode.mk [99,50] strBCIR [] 0 0 [] {}
def c8bnd3 : TRNNode := TRNNode.mk [99,51] strBREC [] 0 0 [] {}
def c8layerB : TRNNode :=
  TRNNode.mk [66] strLAYR [] 0 0 [c8bnd2, c8bnd3] { name := some [66] }
def c8layerA : TRNNode :=
  TRNNode.mk [65] strLAYR [] 0 0 [c8bnd1, c8layerB] { name := some [65] }
def c8root : TRNNode := TRNNode.mk [82] strPTAT [] 0 0 [c8layerA] {}

/-- The boundary record `TRNParser.parse` extracts from `c3buf`. -/
def c3rec : Boundary :=
  { shape := BShape.circle (f32val 0) (f32val 0) (f32val 0x40E00000),
    name := strBoundaryCircle, featherType := F32.finite 0, featherAmount := f32val 0,
    layerPath := [], offset := 12 }

/-- `c3rec` with its stored offset re-pointed at a position from which the
re-walk finds no `DATA` chunk (the walk returns the source's `-1`). -/
def c3recBad : Boundary :=
  { shape := BShape.circle (f32val 0) (f32val 0) (f32val 0x40E00000),
    name := strBoundaryCircle, featherType := F32.finite 0, featherAmount := f32val 0,
    layerPath := [], offset := 44 }

/-- The boundary record `TRNParser.parse` extracts from `c4buf`. -/
def c4rec : Boundary :=
  { shape := BShape.circle (f32val 0) (f32val 0) (f32val 0),
    name := strBoundaryCircle, featherType := F32.finite 0, featherAmount := f32val 0,
    layerPath := [], offset := 12 }

/-- The boundary record `TRNParser.parse` extracts from `c1buf`: name
`'Ab'` from the IHDR, radius 42.5 from the geometry `DATA` at offset 60. -/
def c1rec : Boundary :=
  { shape := BShape.circle (f32val 0) (f32val 0) (f32val 0x422A0000),
    name := [65, 98], featherType := F32.finite 0, featherAmount := f32val 0,
    layerPath := [], offset := 12 }

/-! ### Helper lemmas -/

theorem byteAt_append_zeros (d : List Nat) (n p : Nat) :
    byteAt (d ++ List.replicate n 0) p = byteAt d p := by
  unfold byteAt
  rw [List.getD_eq_getElem?_getD, List.getD_eq_getElem?_getD]
  rcases lt_or_ge p d.length with h | h
  · rw [List.getElem?_append_left h]
  · rw [List.getElem?_append_right h, List.getElem?_replicate,
      List.getElem?_eq_none h]
    split <;> rfl

theorem byteAt_set (d : List Nat) (i j v : Nat) :
    byteAt (d.set i v) j = if i = j ∧ i < d.length then v % 256 else byteAt d j := by
  unfold byteAt
  rw [List.getD_eq_getElem?_getD, List.getD_eq_getElem?_getD, List.getElem?_set]
  by_cases h1 : i = j
  · subst h1
    by_cases h2 : i < d.length
    · simp [h2]
    · simp [h2, List.getElem?_eq_none (Nat.le_of_not_lt h2)]
  · simp [h1]

theorem readString_snd (d : List Nat) :
    ∀ n p, (TRNParser.readString d p n).2 = p + min n (d.length - p) := by
  intro n
  induction n with
  | zero => intro p; simp [TRNParser.readString]
  | succ k ih =>
    intro p
    unfold TRNParser.readString
    by_cases h : p < d.length
    · simp only [h, if_true]
      rw [ih (p + 1)]
      omega
    · simp only [h, if_false]
      omega

theorem readString_fst_length (d : List Nat) :
    ∀ n p, (TRNParser.readString d p n).1.length = min n (d.length - p) := by
  intro n
  induction n with
  | zero => intro p; simp [TRNParser.readString]
  | succ k ih =>
    intro p
    unfold TRNParser.readString
    by_cases h : p < d.length
    · simp only [h, if_true, List.length_cons]
      rw [ih (p + 1)]
      omega
    · simp only [h, if_false, List.length_nil]
      omega

theorem readString_fst_nil (d : List Nat) (n p : Nat) (h : d.length ≤ p) :
    (TRNParser.readString d p n).1 = [] := by
  cases n with
  | zero => rfl
  | succ k =>
    unfold TRNParser.readString
    simp only [Nat.not_lt.mpr h, if_false]

/-- The `DATA`-tag read of `parseMapInfo` happens at the cursor left by the
form-type skip read at 20, which coincides with a read at 24 in every
case (exactly at 24 when the buffer reaches that far, and an empty read
either way when it does not). -/
theorem readString_skip24 (d : List Nat) :
    (TRNParser.readString d ((TRNParser.readString d 20 4).2) 4).1 =
      (TRNParser.readString d 24 4).1 := by
  have hs := readString_snd d 4 20
  rcases le_or_lt 24 d.length with h | h
  · have : (TRNParser.readString d 20 4).2 = 24 := by omega
    rw [this]
  · have h1 : d.length ≤ (TRNParser.readString d 20 4).2 := by omega
    rw [readString_fst_nil d 4 _ h1, readString_fst_nil d 4 24 (by omega)]

theorem writeFloat_byteAt_outside (d : List Nat) (o w j : Nat)
    (h : j < o ∨ o + 3 < j) :
    byteAt (TRNDocument.writeFloat32LE d o w) j = byteAt d j := by
  unfold TRNDocument.writeFloat32LE
  rw [byteAt_set, byteAt_set, byteAt_set, byteAt_set]
  have h3 : ¬ (o + 3 = j) := by omega
  have h2 : ¬ (o + 2 = j) := by omega
  have h1 : ¬ (o + 1 = j) := by omega
  have h0 : ¬ (o = j) := by omega
  simp [h0, h1, h2, h3]

theorem writeFloat_byteAt (d : List Nat) (o w j : Nat) :
    byteAt (TRNDocument.writeFloat32LE d o w) j =
      if o = j ∧ j < d.length then w % 256
      else if o + 1 = j ∧ j < d.length then w / 2 ^ 8 % 256
      else if o + 2 = j ∧ j < d.length then w / 2 ^ 16 % 256
      else if o + 3 = j ∧ j < d.length then w / 2 ^ 24 % 256
      else byteAt d j := by
  unfold TRNDocument.writeFloat32LE
  rw [byteAt_set, byteAt_set, byteAt_set, byteAt_set]
  simp only [List.length_set]
  split_ifs <;> first | rfl | omega

theorem writeFloat_leWordAt (d : List Nat) (o w : Nat)
    (hb : o + 4 ≤ d.length) (hw : w < 2 ^ 32) :
    leWordAt (TRNDocument.writeFloat32LE d o w) o = w := by
  unfold leWordAt
  rw [writeFloat_byteAt, writeFloat_byteAt, writeFloat_byteAt, writeFloat_byteAt]
  rw [if_pos ⟨rfl, by omega⟩]
  rw [if_neg (by omega), if_pos ⟨rfl, by omega⟩]
  rw [if_neg (by omega), if_neg (by omega), if_pos ⟨rfl, by omega⟩]
  rw [if_neg (by omega), if_neg (by omega), if_neg (by omega), if_pos ⟨rfl, by omega⟩]
  omega

theorem f32Gt_false_le (a b : F32) (ha : f32IsNan a = false) (hb : f32IsNan b = false)
    (h : f32Gt a b = false) : f32Le a b = true := by
  cases a <;> cases b <;>
    simp_all [f32Gt, f32Le, f32IsNan] <;>
    first
    | rfl
    | exact le_of_not_lt h

theorem f32Gt_true_le (a b : F32) (h : f32Gt a b = true) : f32Le b a = true := by
  cases a <;> cases b <;>
    simp_all [f32Gt, f32Le] <;>
    first
    | rfl
    | exact le_of_lt h

/-- If the circle walk encounters no `DATA` chunk of size ≥ 20, the loop
changes nothing but the name: geometry and `foundData` pass through. -/
theorem bcirInner_noData (d : List Nat) :
    ∀ fuel p e st, TRNParser.bcirHasData d fuel p e = false →
      ∃ nm, TRNParser.parseBCIRInner d fuel p e st = { st with name := nm } := by
  intro fuel
  induction fuel with
  | zero => exact fun p e st _ => ⟨st.name, rfl⟩
  | succ f ih =>
    intro p e st h
    rw [TRNParser.bcirHasData] at h
    rw [TRNParser.parseBCIRInner]
    by_cases hc : p < e - 8
    · simp only [hc, if_true] at h ⊢
      by_cases hf : (TRNParser.readString d p 4).1 = strFORM
      · simp only [hf, if_true] at h ⊢
        by_cases hi : (TRNParser.readString d
            (TRNParser.readUint32BE d (TRNParser.readString d p 4).2).2 4).1 = strIHDR
        · simp only [hi, if_true] at h ⊢
          obtain ⟨nm, hnm⟩ := ih _ _ _ h
          exact ⟨nm, hnm⟩
        · simp only [hi, if_false] at h ⊢
          rw [Bool.or_eq_false_iff] at h
          obtain ⟨nm0, h0⟩ := ih _ _ TRNParser.CircData.init h.1
          rw [h0]
          have hfd : ({ TRNParser.CircData.init with name := nm0 }).foundData = false := rfl
          simp only [hfd, if_false]
          by_cases ht : jsTruthyStr ({ TRNParser.CircData.init with name := nm0 }).name
          · simp only [ht, if_true]
            obtain ⟨nm, hnm⟩ := ih _ _ { st with name := nm0 } h.2
            exact ⟨nm, hnm⟩
          · simp only [ht, if_false]
            exact ih _ _ st h.2
      · simp only [hf, if_false] at h ⊢
        by_cases hd : (TRNParser.readString d p 4).1 = strDATA
        · simp only [hd, if_true] at h ⊢
          by_cases hs : 20 ≤ (TRNParser.readUint32BE d (TRNParser.readString d p 4).2).1
          · simp only [hs, if_true] at h
            exact absurd h (by simp)
          · simp only [hs, if_false] at h ⊢
            exact ih _ _ st h
        · simp only [hd, if_false] at h ⊢
          exact ih _ _ st h
    · simp only [hc, if_false]
      exact ⟨st.name, rfl⟩

/-! ### The claims -/

/-- C5: `TRNParser.parse` signals a hard parse failure (modelled as
`Except.error`, the only two `throw` sites of the parser) exactly when the
buffer does not begin with a `'FORM'` tag at offset 0 and the `'PTAT'`
sub-tag at offset 8 (any 4 bytes at offset 4 are a big-endian length); with
that header present, `parse` returns `Except.ok` for every buffer and every
fuel — all the decoding behind the header checks is total. -/
theorem trn_c5 (d : List Nat) (fuel : Nat) :
    (∃ doc, TRNParser.parse d fuel = Except.ok doc) ↔
      ((TRNParser.readString d 0 4).1 = strFORM ∧
       (TRNParser.readString d 8 4).1 = strPTAT) := by
  simp only [TRNParser.parse]
  by_cases h1 : (TRNParser.readString d 0 4).1 = strFORM
  · have h2 : (TRNParser.readString d 0 4).2 = 4 := by
      have hl := readString_fst_length d 4 0
      rw [h1] at hl
      have hs := readString_snd d 4 0
      have hFl : strFORM.length = 4 := by decide
      omega
    rw [if_pos h1, h2]
    have h8 : (TRNParser.readUint32BE d 4).2 = 8 := rfl
    rw [h8]
    by_cases h3 : (TRNParser.readString d 8 4).1 = strPTAT
    · rw [if_pos h3]
      simp [h1, h3]
    · rw [if_neg h3]
      simp [h1, h3]
  · rw [if_neg h1]
    simp [h1]

/-- C6: amended.  The Global Parameter Decoder never throws (it is a total
function), and it returns the complete documented default bag whenever the
expected structure is absent — no `'FORM'` tag at offset 12 or no `'DATA'`
tag at offset 24.  (When a `'DATA'` tag *is* present there, the decoder
decodes unconditionally, even from a truncated chunk — see the
counterexample.) -/
theorem trn_c6_amended (d : List Nat)
    (h : ¬ ((TRNParser.readString d 12 4).1 = strFORM ∧
            (TRNParser.readString d 24 4).1 = strDATA)) :
    TRNParser.parseMapInfo d = TRNParser.getDefaultMapInfo := by
  simp only [TRNParser.parseMapInfo]
  by_cases h1 : (TRNParser.readString d 12 4).1 = strFORM
  · have h2 : (TRNParser.readString d 12 4).2 = 16 := by
      have hl := readString_fst_length d 4 12
      rw [h1] at hl
      have hs := readString_snd d 4 12
      have hFl : strFORM.length = 4 := by decide
      omega
    rw [if_pos h1, h2]
    have h20 : (TRNParser.readUint32BE d 16).2 = 20 := rfl
    rw [h20]
    have hne : ¬ ((TRNParser.readString d ((TRNParser.readString d 20 4).2) 4).1 = strDATA) := by
      rw [readString_skip24]
      exact fun hd => h ⟨h1, hd⟩
    rw [if_neg hne]
  · rw [if_neg h1]

/-- Witness for C6: a buffer that is only the 12-byte header has no nested
`FORM` at offset 12, so the decoder returns the full default bag. -/
theorem trn_c6_amended_w :
    TRNParser.parseMapInfo c6nobuf = TRNParser.getDefaultMapInfo :=
  trn_c6_amended c6nobuf (by decide)

/-- C6: counterexample.  `c6trunc` has a valid outer header and a `'DATA'`
tag at the expected position whose declared size is 0 and whose payload is
entirely missing — a truncated global-parameter chunk.  The claim says this
yields the documented default bag; instead the decoder decodes the
truncated bytes and returns `mapSize = 0` (the default is 16384). -/
theorem trn_c6_cex :
    (TRNParser.readString c6trunc 12 4).1 = strFORM ∧
    (TRNParser.readString c6trunc 24 4).1 = strDATA ∧
    TRNParser.parseMapInfo c6trunc ≠ TRNParser.getDefaultMapInfo ∧
    (TRNParser.parseMapInfo c6trunc).mapSize = F32.finite 0 ∧
    TRNParser.getDefaultMapInfo.mapSize = F32.finite 16384 := by decide

/-- C9: amended.  None of the multi-byte Chunk Reader primitives raises a
bounds error: a JS `Uint8Array` read past the end yields `undefined`, which
the bitwise and `DataView` conversions coerce to the byte 0, so every read
at a position with fewer than 4 remaining bytes silently returns the value
of the available bytes zero-extended (padding the buffer with zero bytes
never changes any read), and the parser's and the tree builder's reader
implementations agree everywhere. -/
theorem trn_c9_amended :
    (∀ d p n, (TRNParser.readUint32BE (d ++ List.replicate n 0) p).1 =
        (TRNParser.readUint32BE d p).1) ∧
    (∀ d p n, (TRNParser.readUint32LE (d ++ List.replicate n 0) p).1 =
        (TRNParser.readUint32LE d p).1) ∧
    (∀ d p n, (TRNParser.readFloat32LE (d ++ List.replicate n 0) p).1 =
        (TRNParser.readFloat32LE d p).1) ∧
    (∀ d p, TRNParser.readUint32BE d p = TRNTreeParser.readUint32BE d p) ∧
    (∀ d p, TRNParser.readUint32LE d p = TRNTreeParser.readUint32LE d p) ∧
    (∀ d p, (TRNParser.readFloat32LE d p).1 = TRNTreeParser.readFloat32LEAt d p) := by
  refine ⟨?_, ?_, ?_, ?_, ?_, ?_⟩ <;> intros <;>
    simp [TRNParser.readUint32BE, TRNParser.readUint32LE, TRNParser.readFloat32LE,
      TRNTreeParser.readUint32BE, TRNTreeParser.readUint32LE, TRNTreeParser.readFloat32LEAt,
      beWordAt, leWordAt, byteAt_append_zeros]

/-- C9: counterexample.  At position 0 of a 2-byte buffer (fewer than 4
bytes remain) the claim demands a bounds error; instead the big-endian read
silently returns `0x01020000`, the float read decodes the zero-extended
word 513, and the document reader even fabricates NUL chars — while the
spec's checked-read contract (`readUint32BEChecked`) refuses. -/
theorem trn_c9_cex :
    ([1, 2] : List Nat).length < 0 + 4 ∧
    (TRNParser.readUint32BE [1, 2] 0).1 = 16908288 ∧
    readUint32BEChecked [1, 2] 0 = none ∧
    (TRNParser.readFloat32LE [1, 2] 0).1 = f32val 513 ∧
    readUint32LEChecked [1, 2] 0 = none ∧
    TRNDocument.readString [1, 2] 0 4 = [1, 2, 0, 0] := by decide

/-- C10: amended.  Every rectangle record whose decoded corner fields are
not NaN satisfies `x1 ≤ x2` and `z1 ≤ z2` after `parseBREC`'s swap
normalization; a NaN corner defeats the `>` comparison (every NaN
comparison is false) and is left where it was decoded.  In particular the
spec's example holds: raw `x1 = 100, x2 = -50` parses to
`x1 = -50, x2 = 100`. -/
theorem trn_c10_amended :
    (∀ d fuel p size path off,
      (f32IsNan (TRNParser.parseBREC d fuel p size path off).rectX1 = false →
        f32IsNan (TRNParser.parseBREC d fuel p size path off).rectX2 = false →
        f32Le (TRNParser.parseBREC d fuel p size path off).rectX1
          (TRNParser.parseBREC d fuel p size path off).rectX2 = true) ∧
      (f32IsNan (TRNParser.parseBREC d fuel p size path off).rectZ1 = false →
        f32IsNan (TRNParser.parseBREC d fuel p size path off).rectZ2 = false →
        f32Le (TRNParser.parseBREC d fuel p size path off).rectZ1
          (TRNParser.parseBREC d fuel p size path off).rectZ2 = true)) ∧
    ((TRNParser.parse c10wbuf 50).toOption.map
        (fun doc => doc.boundaries.map (fun b => (b.rectX1, b.rectX2))) =
      some [(F32.finite (-50), F32.finite 100)]) := by
  constructor
  · intro d fuel p size path off
    simp only [TRNParser.parseBREC]
    set st := TRNParser.parseBRECInner d fuel p (p + size) TRNParser.RectData.init with hst
    constructor
    · by_cases hx : f32Gt st.x1 st.x2 = true
      · rw [if_pos hx]
        intro h1 h2
        simp only [Boundary.rectX1, Boundary.rectX2]
        exact f32Gt_true_le _ _ hx
      · simp only [Bool.not_eq_true] at hx
        rw [if_neg (show ¬ (f32Gt st.x1 st.x2 = true) by simp [hx])]
        intro h1 h2
        simp only [Boundary.rectX1, Boundary.rectX2] at h1 h2 ⊢
        exact f32Gt_false_le _ _ h1 h2 hx
    · by_cases hz : f32Gt st.z1 st.z2 = true
      · rw [if_pos hz]
        intro h1 h2
        simp only [Boundary.rectZ1, Boundary.rectZ2]
        exact f32Gt_true_le _ _ hz
      · simp only [Bool.not_eq_true] at hz
        rw [if_neg (show ¬ (f32Gt st.z1 st.z2 = true) by simp [hz])]
        intro h1 h2
        simp only [Boundary.rectZ1, Boundary.rectZ2] at h1 h2 ⊢
        exact f32Gt_false_le _ _ h1 h2 hz
  · decide

/-- Witness for C10: the spec's own instance, with both hypotheses (no NaN
corner) discharged on the concrete buffer. -/
theorem trn_c10_amended_w :
    f32Le (TRNParser.parseBREC c10wbuf 50 24 32 [] 12).rectX1
      (TRNParser.parseBREC c10wbuf 50 24 32 [] 12).rectX2 = true :=
  (trn_c10_amended.1 c10wbuf 50 24 32 [] 12).1 (by decide) (by decide)

/-- C10: counterexample.  A rectangle whose `x1` bytes decode to NaN is
*not* normalized to `x1 ≤ x2`: the record keeps `x1 = NaN, x2 = 5` and
`x1 ≤ x2` is false (IEEE comparisons with NaN are all false), refuting the
claim's "every rectangle boundary record ... is normalized so that
`x1 <= x2`". -/
theorem trn_c10_cex :
    (TRNParser.parse c10buf 50).toOption.map
        (fun doc => doc.boundaries.map (fun b => (b.rectX1, b.rectX2))) =
      some [(F32.nan, F32.finite 5)] ∧
    f32Le F32.nan (F32.finite 5) = false := by decide

/-- C2: amended.  The dual extraction agrees where both implementations
read the same bytes: the 20-byte circle decode is identical field-by-field
(the flat parser's sequential cursor reads land on exactly the absolute
offsets 0/4/8/12/16 the tree builder uses), the rectangle decode reads the
same offsets 0/4/8/12/16/20 (the flat record then additionally normalizes
its corners, so the two agree whenever the raw corners are already
ordered), and both read `vertexCount` as the u32 at offset 0 for
polygons/polylines.  For polygon/polyline `featherAmount` (and polyline
`width`) the two implementations read different offsets and generally
disagree — see the counterexample. -/
theorem trn_c2_amended :
    (∀ d p, TRNParser.decodeCircleFlat d p =
      ((TRNTreeParser.decodeCircleTree d p).1, (TRNTreeParser.decodeCircleTree d p).2.1,
       (TRNTreeParser.decodeCircleTree d p).2.2.1,
       F32.finite (mkRat ((TRNTreeParser.decodeCircleTree d p).2.2.2.1 : Int) 1),
       (TRNTreeParser.decodeCircleTree d p).2.2.2.2)) ∧
    (∀ d p, (TRNParser.readUint32LE d p).1 = TRNTreeParser.readUint32LEAt d p) ∧
    (∀ d p,
      (TRNParser.decodeRectFlat d p).1 = (TRNTreeParser.decodeRectTree d p).1 ∧
      (TRNParser.decodeRectFlat d p).2.1 = (TRNTreeParser.decodeRectTree d p).2.1 ∧
      (TRNParser.decodeRectFlat d p).2.2.1 = (TRNTreeParser.decodeRectTree d p).2.2.1 ∧
      (TRNParser.decodeRectFlat d p).2.2.2.1 = (TRNTreeParser.decodeRectTree d p).2.2.2.1 ∧
      (TRNParser.decodeRectFlat d p).2.2.2.2.1 =
        F32.finite (mkRat ((TRNTreeParser.decodeRectTree d p).2.2.2.2.1 : Int) 1) ∧
      (TRNParser.decodeRectFlat d p).2.2.2.2.2 = (TRNTreeParser.decodeRectTree d p).2.2.2.2.2) ∧
    (∀ d fuel p size path off,
      f32Gt (TRNParser.parseBRECInner d fuel p (p + size) TRNParser.RectData.init).x1
        (TRNParser.parseBRECInner d fuel p (p + size) TRNParser.RectData.init).x2 = false →
      f32Gt (TRNParser.parseBRECInner d fuel p (p + size) TRNParser.RectData.init).z1
        (TRNParser.parseBRECInner d fuel p (p + size) TRNParser.RectData.init).z2 = false →
      (TRNParser.parseBREC d fuel p size path off).rectX1 =
        (TRNParser.parseBRECInner d fuel p (p + size) TRNParser.RectData.init).x1 ∧
      (TRNParser.parseBREC d fuel p size path off).rectZ1 =
        (TRNParser.parseBRECInner d fuel p (p + size) TRNParser.RectData.init).z1 ∧
      (TRNParser.parseBREC d fuel p size path off).rectX2 =
        (TRNParser.parseBRECInner d fuel p (p + size) TRNParser.RectData.init).x2 ∧
      (TRNParser.parseBREC d fuel p size path off).rectZ2 =
        (TRNParser.parseBRECInner d fuel p (p + size) TRNParser.RectData.init).z2) := by
  refine ⟨fun d p => rfl, fun d p => rfl, fun d p => ⟨rfl, rfl, rfl, rfl, rfl, rfl⟩, ?_⟩
  intro d fuel p size path off hx hz
  simp only [TRNParser.parseBREC]
  rw [if_neg (show ¬ (f32Gt (TRNParser.parseBRECInner d fuel p (p + size)
        TRNParser.RectData.init).x1 (TRNParser.parseBRECInner d fuel p (p + size)
        TRNParser.RectData.init).x2 = true) by simp [hx])]
  rw [if_neg (show ¬ (f32Gt (TRNParser.parseBRECInner d fuel p (p + size)
        TRNParser.RectData.init).z1 (TRNParser.parseBRECInner d fuel p (p + size)
        TRNParser.RectData.init).z2 = true) by simp [hz])]
  exact ⟨rfl, rfl, rfl, rfl⟩

/-- Witness for C2: on `c2buf`'s `BREC`-shaped walk (its `DATA` is too
small for a rectangle, so the raw corners stay zero and are trivially
ordered) the flat record's corners coincide with the raw walk values. -/
theorem trn_c2_amended_w :
    (TRNParser.parseBREC c2buf 50 24 28 [] 12).rectX1 =
      (TRNParser.parseBRECInner c2buf 50 24 52 TRNParser.RectData.init).x1 :=
  ((trn_c2_amended.2.2.2 c2buf 50 24 28 [] 12) (by decide) (by decide)).1

/-- C2: counterexample.  On `c2buf` both walks find the same polygon
`DATA` chunk; the flat Record Extractor decodes `featherAmount = 2`
(reading it after the vertex array) while the Generic Tree Builder decodes
`featherAmount = 3` (reading offset 4, which holds the first vertex's x);
the two extractions disagree, refuting the claimed consistency for the
polygon `featherAmount` field (`vertexCount` still agrees: both read 1). -/
theorem trn_c2_cex :
    (TRNParser.parse c2buf 50).toOption.map
        (fun doc => doc.boundaries.map (fun b => (b.btype, b.featherAmount))) =
      some [(strPolygon, F32.finite 2)] ∧
    (TRNTreeParser.parseTree c2buf 60).children.map
        (fun c => (c.type, c.data.vertexCount, c.data.featherAmount)) =
      [(strBPOL, some 1, some (F32.finite 3))] ∧
    (F32.finite 2 : F32) ≠ F32.finite 3 := by decide

theorem collectBoundariesList_length (l : List TRNNode) :
    (collectBoundariesList l).length =
      (l.map (fun c => (collectBoundaries c).length)).sum := by
  induction l with
  | nil => rfl
  | cons c cs ih => simp [collectBoundariesList, ih]

/-- C8: amended.  The Layer Hierarchy Index reports a *single* count per
layer, `boundaryCount`, which is the total over the layer's whole subtree:
it satisfies the recurrence "self + sum over children" (so nested layers'
boundaries are included); the direct count the source computes is never
stored in `LayerInfo`.  Depth and ordering behave as claimed: on the
spec's example tree (layer A with 1 direct boundary and nested layer B
with 2), the index lists A before B (pre-order), A's entry carries total
count 3, B's entry carries 2, `B.depth = A.depth + 1`, and B's parent link
is A — while A's direct count 1 appears nowhere (A directly owns exactly 1
boundary child). -/
theorem trn_c8_amended :
    (∀ i t nm o s cs b,
      (getBoundariesInLayer (TRNNode.mk i t nm o s cs b)).length =
        (if isBoundaryTypeTag t then 1 else 0) +
          (cs.map (fun c => (getBoundariesInLayer c).length)).sum) ∧
    ((getLayerHierarchy c8root).map
        (fun e => (e.name, e.boundaryCount, e.depth, e.parentId)) =
      [([65], 3, 0, none), ([66], 2, 1, some [65])]) ∧
    (c8layerA.children.filter (fun c => isBoundaryTypeTag c.type)).length = 1 := by
  refine ⟨?_, by decide, by decide⟩
  intro i t nm o s cs b
  show (collectBoundaries (TRNNode.mk i t nm o s cs b)).length = _
  rw [collectBoundaries, List.length_append, collectBoundariesList_length]
  cases h : isBoundaryTypeTag t <;> simp [h, getBoundariesInLayer]

/-- C8: counterexample.  On the spec's example tree (A directly owns 1
boundary, nested B owns 2) the claim says the index reports both A's
direct count (1) and total count (3).  `LayerInfo` carries a single count:
A's entry reports 3 and no entry of the hierarchy reports the direct
count 1, so the direct count is not reported. -/
theorem trn_c8_cex :
    (getLayerHierarchy c8root).map
        (fun e => (e.name, e.boundaryCount, e.depth, e.parentId)) =
      [([65], 3, 0, none), ([66], 2, 1, some [65])] ∧
    (c8layerA.children.filter (fun c => isBoundaryTypeTag c.type)).length = 1 ∧
    ¬ (∃ e ∈ getLayerHierarchy c8root, e.boundaryCount = 1) := by decide

/-- C3: for a circle boundary record whose data chunk the Patch Writer's
walk locates at `dOff` (with the 4-byte radius window inside the buffer,
as the claim's "the 4 bytes at absolute offset dataOffset+8" presupposes),
`applyEdit(idx, 'radius', 42.5)` — 42.5 carried as its float32 pattern
`0x422A0000` — returns `true`, the 4 bytes at `dOff + 8` afterwards decode
as little-endian IEEE-754 float32 to 42.5 (= 85/2), and the in-memory
record's radius equals 42.5. -/
theorem trn_c3 (d : List Nat) (bs : List Boundary) (fuel idx : Nat) (b : Boundary)
    (dOff : Nat) (cx cz r : F32)
    (hb : bs.get? idx = some b) (hshape : b.shape = BShape.circle cx cz r)
    (hfind : TRNDocument.findDataOffset d fuel b = some (some dOff))
    (hbound : dOff + 12 ≤ d.length) :
    TRNDocument.applyEdit d bs fuel idx strRadius 0x422A0000 =
      some (true, TRNDocument.writeFloat32LE d (dOff + 8) 0x422A0000,
        bs.set idx { b with shape := BShape.circle cx cz (f32val 0x422A0000) }) ∧
    leWordAt (TRNDocument.writeFloat32LE d (dOff + 8) 0x422A0000) (dOff + 8) = 0x422A0000 ∧
    f32val 0x422A0000 = F32.finite (mkRat 85 2) ∧
    (mkRat 85 2 : ℚ) = 85 / 2 ∧
    Boundary.radiusF { b with shape := BShape.circle cx cz (f32val 0x422A0000) } =
      F32.finite (mkRat 85 2) := by
  have hty : b.btype = strCircle := by
    unfold Boundary.btype
    rw [hshape]
  have hoff : TRNDocument.getFieldOffset b.btype strRadius = some 8 := by
    rw [hty]
    decide
  have hset : TRNDocument.setField b strRadius (f32val 0x422A0000) =
      { b with shape := BShape.circle cx cz (f32val 0x422A0000) } := by
    simp +decide [TRNDocument.setField, hshape]
  have hval : f32val 0x422A0000 = F32.finite (mkRat 85 2) := by decide
  refine ⟨?_, ?_, hval, by norm_num, by simp [Boundary.radiusF, hval]⟩
  · unfold TRNDocument.applyEdit
    simp only [hb, hfind, hoff, hset]
  · exact writeFloat_leWordAt d (dOff + 8) 0x422A0000 (by omega) (by norm_num)

/-- Witness for C3 on `c3buf`: the parsed circle record, the walk finding
its geometry payload at 32, and the patch at 40 behaving as claimed. -/
theorem trn_c3_w :
    (TRNParser.parse c3buf 50).toOption.map (fun doc => doc.boundaries) = some [c3rec] ∧
    TRNDocument.applyEdit c3buf [c3rec] 50 0 strRadius 0x422A0000 =
      some (true, TRNDocument.writeFloat32LE c3buf 40 0x422A0000,
        [{ c3rec with shape := BShape.circle (f32val 0) (f32val 0) (f32val 0x422A0000) }]) ∧
    leWordAt (TRNDocument.writeFloat32LE c3buf 40 0x422A0000) 40 = 0x422A0000 ∧
    Boundary.radiusF { c3rec with
        shape := BShape.circle (f32val 0) (f32val 0) (f32val 0x422A0000) } =
      F32.finite (mkRat 85 2) := by
  have h := trn_c3 c3buf [c3rec] 50 0 c3rec 32 (f32val 0) (f32val 0) (f32val 0x40E00000)
    (by decide) rfl (by decide) (by decide)
  exact ⟨by decide, h.1, h.2.1, h.2.2.2.2⟩

/-- C4: amended.  When the relocation walk terminates, `applyEdit` is
atomic on failure: an out-of-range index, a failed relocation (the
source's `-1`), or an unknown field name each return `false` with the
buffer and the record list untouched.  On success it returns `true`, the
in-memory mirror is updated, every byte outside the 4-byte target window
is unchanged, and the window bytes hold the value's little-endian encoding
*provided the window lies inside the buffer* — bytes of the window beyond
the buffer end are silently not written (a JS typed-array out-of-range
store is a no-op), which is what the counterexample exploits.  (A walk
that never terminates — possible because the document's size read is
signed — returns nothing at all.) -/
theorem trn_c4_amended :
    (∀ d (bs : List Boundary) fuel idx f w, bs.get? idx = none →
      TRNDocument.applyEdit d bs fuel idx f w = some (false, d, bs)) ∧
    (∀ d (bs : List Boundary) fuel idx f w b, bs.get? idx = some b →
      TRNDocument.findDataOffset d fuel b = some none →
      TRNDocument.applyEdit d bs fuel idx f w = some (false, d, bs)) ∧
    (∀ d (bs : List Boundary) fuel idx f w b o, bs.get? idx = some b →
      TRNDocument.findDataOffset d fuel b = some (some o) →
      TRNDocument.getFieldOffset b.btype f = none →
      TRNDocument.applyEdit d bs fuel idx f w = some (false, d, bs)) ∧
    (∀ d (bs : List Boundary) fuel idx f w b o fo, bs.get? idx = some b →
      TRNDocument.findDataOffset d fuel b = some (some o) →
      TRNDocument.getFieldOffset b.btype f = some fo →
      TRNDocument.applyEdit d bs fuel idx f w =
        some (true, TRNDocument.writeFloat32LE d (o + fo) w,
          bs.set idx (TRNDocument.setField b f (f32val w))) ∧
      (∀ j, j < o + fo ∨ o + fo + 3 < j →
        byteAt (TRNDocument.writeFloat32LE d (o + fo) w) j = byteAt d j) ∧
      (w < 2 ^ 32 → o + fo + 4 ≤ d.length →
        leWordAt (TRNDocument.writeFloat32LE d (o + fo) w) (o + fo) = w)) := by
  refine ⟨?_, ?_, ?_, ?_⟩
  · intro d bs fuel idx f w h
    unfold TRNDocument.applyEdit
    simp only [h]
  · intro d bs fuel idx f w b hb hf
    unfold TRNDocument.applyEdit
    simp only [hb, hf]
  · intro d bs fuel idx f w b o hb hf ho
    unfold TRNDocument.applyEdit
    simp only [hb, hf, ho]
  · intro d bs fuel idx f w b o fo hb hf ho
    refine ⟨?_, fun j hj => writeFloat_byteAt_outside d (o + fo) w j hj,
      fun hw hbnd => writeFloat_leWordAt d (o + fo) w hbnd hw⟩
    unfold TRNDocument.applyEdit
    simp only [hb, hf, ho]

/-- Witness for C4, all on concrete states parsed from the test vectors:
an out-of-range index fails and changes nothing; an unknown field
(`'width'` on a circle) fails and changes nothing; a record whose stored
offset leads the walk to no `DATA` chunk fails and changes nothing; a
valid radius edit succeeds, writes exactly its in-bounds window and
mirrors the value. -/
theorem trn_c4_amended_w :
    TRNDocument.applyEdit c3buf [c3rec] 50 5 strRadius 10 = some (false, c3buf, [c3rec]) ∧
    TRNDocument.applyEdit c3buf [c3rec] 50 0 strWidth 10 = some (false, c3buf, [c3rec]) ∧
    TRNDocument.applyEdit c3buf [c3recBad] 50 0 strRadius 10 =
      some (false, c3buf, [c3recBad]) ∧
    TRNDocument.applyEdit c3buf [c3rec] 50 0 strRadius 0x41200000 =
      some (true, TRNDocument.writeFloat32LE c3buf 40 0x41200000,
        [TRNDocument.setField c3rec strRadius (f32val 0x41200000)]) ∧
    byteAt (TRNDocument.writeFloat32LE c3buf 40 0x41200000) 12 = byteAt c3buf 12 ∧
    leWordAt (TRNDocument.writeFloat32LE c3buf 40 0x41200000) 40 = 0x41200000 := by
  have h4 := trn_c4_amended.2.2.2 c3buf [c3rec] 50 0 strRadius 0x41200000 c3rec 32 8
    (by decide) (by decide) (by decide)
  exact ⟨trn_c4_amended.1 c3buf [c3rec] 50 5 strRadius 10 (by decide),
    trn_c4_amended.2.2.1 c3buf [c3rec] 50 0 strWidth 10 c3rec 32
      (by decide) (by decide) (by decide),
    trn_c4_amended.2.1 c3buf [c3recBad] 50 0 strRadius 10 c3recBad
      (by decide) (by decide),
    h4.1, h4.2.1 12 (by decide), h4.2.2 (by decide) (by decide)⟩

/-- C4: counterexample.  `c4buf` parses to a circle record; the walk
relocates its (declared-size-20, fully truncated) `DATA` payload at offset
32 — the buffer's very end — so the radius window 40..43 lies wholly
outside the buffer.  `applyEdit` nevertheless returns `true` and the
buffer comes back byte-for-byte identical: on this success the full 4
bytes are *not* written, refuting the claim's success clause. -/
theorem trn_c4_cex :
    (TRNParser.parse c4buf 50).toOption.map (fun doc => doc.boundaries) = some [c4rec] ∧
    TRNDocument.applyEdit c4buf [c4rec] 50 0 strRadius 0x422A0000 =
      some (true, c4buf, [TRNDocument.setField c4rec strRadius (f32val 0x422A0000)]) ∧
    List.take 4 (List.drop 40 c4buf) ≠ [0x00, 0x00, 0x2A, 0x42] := by decide

/-- C7: a boundary group whose walk meets no `DATA` chunk of at least the
circle's 20-byte minimum still yields a record — `parseBCIR` always
returns one — with every geometry field zero (only the name can have been
set); and `parseContent`, on meeting a `FORM BCIR` chunk, conses that
record onto the parse of the remaining siblings (continuing at
`chunkStart + 8 + chunkSize`), so the record is neither dropped nor does
the parse stop. -/
theorem trn_c7 :
    (∀ d fuel p size path off,
      TRNParser.bcirHasData d fuel p (p + size) = false →
      ∃ nm, TRNParser.parseBCIR d fuel p size path off =
        { shape := BShape.circle (F32.finite 0) (F32.finite 0) (F32.finite 0),
          name := nm, featherType := F32.finite 0, featherAmount := F32.finite 0,
          layerPath := path, offset := off }) ∧
    (∀ d fuel p e path,
      p < e - 8 →
      (TRNParser.readString d p 4).1 = strFORM →
      (TRNParser.readString d
        ((TRNParser.readUint32BE d (TRNParser.readString d p 4).2).2) 4).1 = strBCIR →
      TRNParser.parseContent d (fuel + 1) p e path =
        TRNParser.parseBCIR d fuel
            ((TRNParser.readString d
              ((TRNParser.readUint32BE d (TRNParser.readString d p 4).2).2) 4).2)
            ((TRNParser.readUint32BE d (TRNParser.readString d p 4).2).1 - 4) path p
          :: TRNParser.parseContent d fuel
              (p + 8 + (TRNParser.readUint32BE d (TRNParser.readString d p 4).2).1) e path) := by
  constructor
  · intro d fuel p size path off h
    obtain ⟨nm, hnm⟩ := bcirInner_noData d fuel p (p + size) TRNParser.CircData.init h
    refine ⟨nm.getD strBoundaryCircle, ?_⟩
    unfold TRNParser.parseBCIR
    rw [hnm]
    rfl
  · intro d fuel p e path hc hf hb
    simp only [TRNParser.parseContent]
    rw [if_pos hc, if_pos hf, if_pos hb]

/-- Witness for C7: the spec's malformed circle (10-byte `DATA`, below the
20-byte minimum) in `c7buf` still yields a record with zero geometry, the
content walk conses it and continues with the sibling chunk at 42, and the
full parse emits both it and the following well-formed circle. -/
theorem trn_c7_w :
    (∃ nm, TRNParser.parseBCIR c7buf 49 24 18 [] 12 =
      { shape := BShape.circle (F32.finite 0) (F32.finite 0) (F32.finite 0),
        name := nm, featherType := F32.finite 0, featherAmount := F32.finite 0,
        layerPath := [], offset := 12 }) ∧
    TRNParser.parseContent c7buf 50 12 82 [] =
      TRNParser.parseBCIR c7buf 49 24 18 [] 12 :: TRNParser.parseContent c7buf 49 42 82 [] ∧
    (TRNParser.parse c7buf 50).toOption.map
        (fun doc => doc.boundaries.map (fun b => (b.radiusF, b.offset))) =
      some [(F32.finite 0, 12), (F32.finite 5, 42)] := by
  refine ⟨trn_c7.1 c7buf 49 24 18 [] 12 (by decide), ?_, by decide⟩
  have h := trn_c7.2 c7buf 49 12 82 [] (by decide) (by decide) (by decide)
  exact h

/-- C1: evaluation of the code at the failing input (code bug).  On
`c1buf` — a circle whose `IHDR` name chunk precedes its geometry `DATA`,
the layout real terrain files use — the extractor decodes the record
(radius 42.5) from the geometry `DATA` whose payload starts at 60, but the
Patch Writer's re-walk returns 44, the payload of the *IHDR name chunk*
(the first `DATA` in depth-first order, accepted with no minimum-size
check), not the same chunk.  A no-op `applyEdit` that writes the existing
radius 42.5 back therefore corrupts bytes 52..55 (the geometry `DATA`'s
tag), and re-parsing the patched buffer decodes radius 0 ≠ 42.5: the
claimed round-trip offset integrity fails. -/
theorem trn_c1_eval :
    (TRNParser.parse c1buf 50).toOption.map (fun doc => doc.boundaries) = some [c1rec] ∧
    TRNParser.readStringAt c1buf 52 4 = strDATA ∧
    TRNParser.readUint32BEAt c1buf 56 = 20 ∧
    TRNDocument.findDataOffset c1buf 50 c1rec = some (some 44) ∧
    (44 : Nat) ≠ 60 ∧
    TRNDocument.applyEdit c1buf [c1rec] 50 0 strRadius 0x422A0000 =
      some (true, TRNDocument.writeFloat32LE c1buf 52 0x422A0000, [c1rec]) ∧
    (TRNParser.parse (TRNDocument.writeFloat32LE c1buf 52 0x422A0000) 50).toOption.map
        (fun doc => doc.boundaries.map (fun b => b.radiusF)) =
      some [F32.finite 0] ∧
    c1rec.radiusF = f32val 0x422A0000 ∧
    f32val 0x422A0000 ≠ F32.finite 0 := by decide
